import Mathlib

/-!
Verification of the crawl4react-rag extraction/validation pipeline.

This file gives a shallow embedding, in Lean, of the pure computational core
of the repository: the Supabase schema introspector
(`knowledge_graphs/supabase_analyzer.py`), the RPC parameter validator
(`knowledge_graphs/rpc_parameter_validator.py`), the overall-confidence
computation of the comprehensive validator
(`knowledge_graphs/comprehensive_validator.py`), the Neo4j graph construction
protocol (`knowledge_graphs/parse_repo_into_neo4j.py`), and the
TypeScript analyzer entry point (`knowledge_graphs/typescript_analyzer.py`).

External effects (database queries, subprocess invocations, `json.loads` on
arbitrary strings, Python string hashing) are modelled as explicit oracle
parameters; everything else is translated directly from the Python source.
-/

set_option autoImplicit false

namespace Crawl4ReactRag

/-! ## Python value model

Python call-site parameter values are dynamically typed.  We model the values
that flow through the validators as a tagged variant.  `bool` is listed
separately from `int` even though Python `bool` is an `int` subclass; the
places where that subclassing is observable (`isinstance(value, int)` accepting
`True`) are modelled explicitly below. -/

inductive PyValue where
  | str (s : String)
  | int (n : Int)
  | bool (b : Bool)
  | list (xs : List PyValue)
  | dict (fields : List (String × PyValue))
  | pynone

/-- Python truthiness of a value (`bool(v)`). -/
def pyTruthy : PyValue → Bool
  | .str s => s ≠ ""
  | .int n => n ≠ 0
  | .bool b => b
  | .list [] => false
  | .list (_ :: _) => true
  | .dict [] => false
  | .dict (_ :: _) => true
  | .pynone => false

/-- Truthiness of `d.get(k)` results: a missing key behaves like `None`. -/
def pyTruthyOpt : Option PyValue → Bool
  | Option.none => false
  | some v => pyTruthy v

def commaJoin (xs : List String) : String :=
  String.intercalate ", " xs

mutual

/-- Python `repr` of a value (as produced inside `str` of containers). -/
def pyRepr : PyValue → String
  | .str s => "\x27" ++ s ++ "\x27"
  | .int n => toString n
  | .bool b => if b then "True" else "False"
  | .list xs => "[" ++ commaJoin (pyReprList xs) ++ "]"
  | .dict fs => "\x7b" ++ commaJoin (pyReprFields fs) ++ "\x7d"
  | .pynone => "None"

def pyReprList : List PyValue → List String
  | [] => []
  | v :: rest => pyRepr v :: pyReprList rest

def pyReprFields : List (String × PyValue) → List String
  | [] => []
  | (k, v) :: rest => ("\x27" ++ k ++ "\x27: " ++ pyRepr v) :: pyReprFields rest

end

/-- Python `str` of a value (`f"{value}"`). -/
def pyStr : PyValue → String
  | .str s => s
  | v => pyRepr v

/-- Python `type(value).__name__`, as used in JSON-schema error messages. -/
def pyTypeName : PyValue → String
  | .str _ => "str"
  | .int _ => "int"
  | .bool _ => "bool"
  | .list _ => "list"
  | .dict _ => "dict"
  | .pynone => "NoneType"

/-- Python-dict assignment `m[k] = v`: an existing key keeps its position and
gets the new value, a new key is appended (insertion order is preserved). -/
def dictSet {α : Type} (m : List (String × α)) (k : String) (v : α) : List (String × α) :=
  if (m.lookup k).isSome then
    m.map (fun p => if p.1 = k then (k, v) else p)
  else
    m ++ [(k, v)]

namespace SupabaseAnalyzer

/-! ## Schema introspector (`supabase_analyzer.py`)

The dataclasses `ColumnInfo`, `TableInfo`, `FunctionInfo` and
`SupabaseSchemaInfo` are translated field by field.  Dictionary-shaped rows
(`foreign_keys`, `indexes`, `policies`, `views`, `enums`, function parameter
dicts) are given nominal record types listing exactly the keys the source
writes and reads.

A function parameter dict is built by `_analyze_function_parameters` with keys
`name`, `type`, `mode`, `position`; the RPC validator later reads these with
`param.get(...)` and also probes the absent keys `default` and `description`.
A key that is present with value `None` (a SQL NULL) is modelled the same way
as an absent key (`Option.none`); no claim distinguishes the two. -/

structure ParamDict where
  name : Option String := Option.none
  type : Option String := Option.none
  mode : Option String := Option.none
  position : Option Nat := Option.none
  default : Option PyValue := Option.none
  description : Option String := Option.none

structure ColumnInfo where
  name : String
  data_type : String
  is_nullable : Bool
  default_value : Option String := Option.none
  is_primary_key : Bool := false
  is_foreign_key : Bool := false
  foreign_table : Option String := Option.none
  foreign_column : Option String := Option.none
  constraints : List String := []
  max_length : Option Int := Option.none
deriving DecidableEq

structure FkDict where
  column_name : String
  foreign_table_schema : String
  foreign_table_name : String
  foreign_column_name : String
  constraint_name : String
deriving DecidableEq

structure IdxDict where
  name : String
  definition : String
deriving DecidableEq

structure PolicyDict where
  name : String
  permissive : String
  roles : List String
  command : String
  qualifier : Option String
  with_check : Option String
deriving DecidableEq

structure TableInfo where
  name : String
  schema : String
  columns : List ColumnInfo := []
  primary_keys : List String := []
  foreign_keys : List FkDict := []
  indexes : List IdxDict := []
  rls_enabled : Bool := false
  policies : List PolicyDict := []
  estimated_rows : Nat := 0
deriving DecidableEq

structure FunctionInfo where
  name : String
  schema : String
  return_type : String
  parameters : List ParamDict := []
  language : String := "plpgsql"
  security_definer : Bool := false
  description : Option String := Option.none

structure ViewDict where
  schema : String
  name : String
  definition : Option String
deriving DecidableEq

structure EnumDict where
  name : String
  values : List String
deriving DecidableEq

structure SupabaseSchemaInfo where
  project_url : String
  tables : List TableInfo := []
  functions : List FunctionInfo := []
  views : List ViewDict := []
  enums : List EnumDict := []
  extensions : List String := []
  schemas : List String := []

/-! Row types returned by the metadata sub-queries, one per `execute_sql`
query, carrying exactly the selected columns that the source reads. -/

structure TableRow where
  table_schema : String
  table_name : String

structure ColumnRow where
  column_name : String
  data_type : String
  is_nullable : String
  column_default : Option String
  character_maximum_length : Option Int

structure PkRow where
  column_name : String

structure FkRow where
  column_name : String
  foreign_table_schema : String
  foreign_table_name : String
  foreign_column_name : String
  constraint_name : String

structure IdxRow where
  indexname : String
  indexdef : String

structure RlsRow where
  relrowsecurity : Bool

structure PolicyRow where
  policyname : String
  permissive : String
  roles : List String
  cmd : String
  qual : Option String
  with_check : Option String

structure FunctionRow where
  routine_schema : String
  routine_name : String
  return_type : String
  external_language : Option String
  security_type : Option String

structure ParamRow where
  parameter_name : Option String
  data_type : Option String
  parameter_mode : Option String
  ordinal_position : Option Nat

structure EnumRow where
  enum_name : String
  enum_values : List String

structure ViewRow where
  table_schema : String
  table_name : String
  view_definition : Option String

structure SchemaRow where
  schema_name : String

structure ExtRow where
  extname : String

/-- The external relational backend, modelled as an oracle: each metadata
sub-query either fails (Python raises, `Except.error`) or returns its rows.
`tableProbe` models the REST-access probe of the fallback path
(`self.client.table(name).select(...).execute()` succeeding or raising). -/
structure SupabaseOracle where
  tablesQuery : Except String (List TableRow)
  columnsQuery : String → String → Except String (List ColumnRow)
  primaryKeysQuery : String → String → Except String (List PkRow)
  foreignKeysQuery : String → String → Except String (List FkRow)
  indexesQuery : String → String → Except String (List IdxRow)
  rlsQuery : String → String → Except String (List RlsRow)
  policiesQuery : String → String → Except String (List PolicyRow)
  functionsQuery : Except String (List FunctionRow)
  parametersQuery : String → String → Except String (List ParamRow)
  viewsQuery : Except String (List ViewRow)
  enumsQuery : Except String (List EnumRow)
  extensionsQuery : Except String (List ExtRow)
  schemasQuery : Except String (List SchemaRow)
  tableProbe : String → Bool

/-- Embeds `_analyze_table_columns`: a failed sub-query yields `[]`. -/
def analyzeTableColumns (o : SupabaseOracle) (schema tbl : String) : List ColumnInfo :=
  match o.columnsQuery schema tbl with
  | .error _ => []
  | .ok rows => rows.map (fun r =>
      { name := r.column_name
        data_type := r.data_type
        is_nullable := r.is_nullable == "YES"
        default_value := r.column_default
        max_length := r.character_maximum_length })

/-- Embeds `_analyze_primary_keys`. -/
def analyzePrimaryKeys (o : SupabaseOracle) (schema tbl : String) : List String :=
  match o.primaryKeysQuery schema tbl with
  | .error _ => []
  | .ok rows => rows.map (fun r => r.column_name)

/-- Embeds `_analyze_foreign_keys`. -/
def analyzeForeignKeys (o : SupabaseOracle) (schema tbl : String) : List FkDict :=
  match o.foreignKeysQuery schema tbl with
  | .error _ => []
  | .ok rows => rows.map (fun r =>
      { column_name := r.column_name
        foreign_table_schema := r.foreign_table_schema
        foreign_table_name := r.foreign_table_name
        foreign_column_name := r.foreign_column_name
        constraint_name := r.constraint_name })

/-- Embeds `_analyze_indexes`. -/
def analyzeIndexes (o : SupabaseOracle) (schema tbl : String) : List IdxDict :=
  match o.indexesQuery schema tbl with
  | .error _ => []
  | .ok rows => rows.map (fun r => { name := r.indexname, definition := r.indexdef })

/-- Embeds `_check_rls_enabled`: first row wins, failure or no rows give `false`. -/
def checkRlsEnabled (o : SupabaseOracle) (schema tbl : String) : Bool :=
  match o.rlsQuery schema tbl with
  | .ok (r :: _) => r.relrowsecurity
  | _ => false

/-- Embeds `_analyze_rls_policies`. -/
def analyzeRlsPolicies (o : SupabaseOracle) (schema tbl : String) : List PolicyDict :=
  match o.policiesQuery schema tbl with
  | .error _ => []
  | .ok rows => rows.map (fun r =>
      { name := r.policyname
        permissive := r.permissive
        roles := r.roles
        command := r.cmd
        qualifier := r.qual
        with_check := r.with_check })

/-- The fixed conventional table names probed by `_analyze_tables_fallback`. -/
def commonTables : List String :=
  ["users", "profiles", "posts", "comments", "logs", "settings"]

/-- Embeds `_analyze_tables_fallback`: record only existence of probe-reachable
tables, with every schema facet left at its dataclass default. -/
def analyzeTablesFallback (o : SupabaseOracle) : List TableInfo :=
  commonTables.filterMap (fun n =>
    if o.tableProbe n then some { name := n, schema := "public" } else Option.none)

/-- Embeds `_analyze_tables`: on a failed table metadata query, fall back to
REST probing; otherwise build one `TableInfo` per row from the facet
sub-queries (each itself fault-tolerant). -/
def analyzeTables (o : SupabaseOracle) : List TableInfo :=
  match o.tablesQuery with
  | .error _ => analyzeTablesFallback o
  | .ok rows => rows.map (fun r =>
      let rls := checkRlsEnabled o r.table_schema r.table_name
      { name := r.table_name
        schema := r.table_schema
        columns := analyzeTableColumns o r.table_schema r.table_name
        primary_keys := analyzePrimaryKeys o r.table_schema r.table_name
        foreign_keys := analyzeForeignKeys o r.table_schema r.table_name
        indexes := analyzeIndexes o r.table_schema r.table_name
        rls_enabled := rls
        policies := if rls then analyzeRlsPolicies o r.table_schema r.table_name else [] })

/-- Embeds `_analyze_function_parameters`. -/
def analyzeFunctionParameters (o : SupabaseOracle) (schema fname : String) : List ParamDict :=
  match o.parametersQuery schema fname with
  | .error _ => []
  | .ok rows => rows.map (fun r =>
      { name := r.parameter_name
        type := r.data_type
        mode := r.parameter_mode
        position := r.ordinal_position })

/-- Embeds `_analyze_functions` (`row['external_language'] or 'plpgsql'` is
Python truthiness on a nullable string). -/
def analyzeFunctions (o : SupabaseOracle) : List FunctionInfo :=
  match o.functionsQuery with
  | .error _ => []
  | .ok rows => rows.map (fun r =>
      { name := r.routine_name
        schema := r.routine_schema
        return_type := r.return_type
        language := match r.external_language with
          | some s => if s = "" then "plpgsql" else s
          | Option.none => "plpgsql"
        security_definer := r.security_type == some "DEFINER"
        parameters := analyzeFunctionParameters o r.routine_schema r.routine_name })

/-- Embeds `_analyze_views`. -/
def analyzeViews (o : SupabaseOracle) : List ViewDict :=
  match o.viewsQuery with
  | .error _ => []
  | .ok rows => rows.map (fun r =>
      { schema := r.table_schema, name := r.table_name, definition := r.view_definition })

/-- Embeds `_analyze_enums`. -/
def analyzeEnums (o : SupabaseOracle) : List EnumDict :=
  match o.enumsQuery with
  | .error _ => []
  | .ok rows => rows.map (fun r => { name := r.enum_name, values := r.enum_values })

/-- Embeds `_analyze_extensions`. -/
def analyzeExtensions (o : SupabaseOracle) : List String :=
  match o.extensionsQuery with
  | .error _ => []
  | .ok rows => rows.map (fun r => r.extname)

/-- Embeds `_analyze_schemas`. -/
def analyzeSchemas (o : SupabaseOracle) : List String :=
  match o.schemasQuery with
  | .error _ => []
  | .ok rows => rows.map (fun r => r.schema_name)

/-- Embeds `analyze_schema` (after a successful connection): the catalog is
assembled facet by facet from the independent sub-queries. -/
def analyzeSchema (o : SupabaseOracle) (projectUrl : String) : SupabaseSchemaInfo :=
  { project_url := projectUrl
    tables := analyzeTables o
    functions := analyzeFunctions o
    views := analyzeViews o
    enums := analyzeEnums o
    extensions := analyzeExtensions o
    schemas := analyzeSchemas o }

end SupabaseAnalyzer

namespace RpcValidator

open SupabaseAnalyzer

/-! ## RPC parameter validator (`rpc_parameter_validator.py`)

The validator is constructed from a `SupabaseSchemaInfo`; its observable state
is the enum cache and the function cache.  `json.loads` succeeding on a string
(used by `_is_valid_json_object`) is the one external ingredient, threaded as
the oracle `PyEnv`. -/

/-- Embeds the `ParameterValidationType` enum. -/
inductive ParameterValidationType where
  | TYPE_MISMATCH
  | MISSING_REQUIRED
  | INVALID_ENUM
  | INVALID_JSON_STRUCTURE
  | PARAMETER_COUNT_MISMATCH
  | OPTIONAL_NOT_PROVIDED
deriving DecidableEq

/-- Embeds the `ParameterType` enum. -/
inductive ParameterType where
  | STRING
  | INTEGER
  | UUID
  | BOOLEAN
  | JSON
  | JSONB
  | TIMESTAMP
  | DATE
  | NUMERIC
  | ARRAY
  | ENUM
deriving DecidableEq

/-- The `.value` attribute of each `ParameterType` member. -/
def ParameterType.value : ParameterType → String
  | .STRING => "text"
  | .INTEGER => "bigint"
  | .UUID => "uuid"
  | .BOOLEAN => "boolean"
  | .JSON => "json"
  | .JSONB => "jsonb"
  | .TIMESTAMP => "timestamp"
  | .DATE => "date"
  | .NUMERIC => "numeric"
  | .ARRAY => "array"
  | .ENUM => "enum"

structure PropertySchema where
  type : Option String
deriving DecidableEq

/-- The JSON schema dicts handled by `_get_json_schema` /
`_validate_json_schema`, keyed by the entries the source reads (`required`,
`properties`, `additionalProperties`); `Option.none` models an absent key. -/
structure JsonSchema where
  required : Option (List String) := Option.none
  properties : Option (List (String × PropertySchema)) := Option.none
  additionalProperties : Option Bool := Option.none
deriving DecidableEq

structure ExpectedParameter where
  name : String
  type : ParameterType
  is_required : Bool
  position : Nat
  enum_values : Option (List String) := Option.none
  json_schema : Option JsonSchema := Option.none
  default_value : Option PyValue := Option.none
  description : Option String := Option.none

structure ParameterValidationError where
  parameter_name : String
  validation_type : ParameterValidationType
  expected : String
  actual : String
  message : String
  severity : String := "HIGH"
  line_number : Nat := 0
  suggestion : String := ""
deriving DecidableEq

/-- Embeds `_build_enum_cache`: a dict from enum name to value list. -/
def buildEnumCache (schema : SupabaseSchemaInfo) : List (String × List String) :=
  schema.enums.foldl (fun cache e => dictSet cache e.name e.values) []

/-- ASCII lowercasing of a character (`str.lower` on the ASCII names that
occur as PostgreSQL type names). -/
def asciiLower (c : Char) : Char :=
  if 'A' ≤ c && c ≤ 'Z' then Char.ofNat (c.toNat + 32) else c

/-- ASCII `str.lower`. -/
def pyLower (s : String) : String :=
  String.mk (s.data.map asciiLower)

/-- Embeds `_map_parameter_type`: an enum-cache hit wins, then the lowercase
PostgreSQL name is mapped, defaulting to `STRING`. -/
def mapParameterType (enumCache : List (String × List String)) (pgType : String) : ParameterType :=
  if (enumCache.lookup pgType).isSome then ParameterType.ENUM
  else
    match pyLower pgType with
    | "text" => ParameterType.STRING
    | "varchar" => ParameterType.STRING
    | "char" => ParameterType.STRING
    | "bigint" => ParameterType.INTEGER
    | "integer" => ParameterType.INTEGER
    | "int" => ParameterType.INTEGER
    | "uuid" => ParameterType.UUID
    | "boolean" => ParameterType.BOOLEAN
    | "bool" => ParameterType.BOOLEAN
    | "json" => ParameterType.JSON
    | "jsonb" => ParameterType.JSONB
    | "timestamp" => ParameterType.TIMESTAMP
    | "timestamptz" => ParameterType.TIMESTAMP
    | "date" => ParameterType.DATE
    | "numeric" => ParameterType.NUMERIC
    | "decimal" => ParameterType.NUMERIC
    | "array" => ParameterType.ARRAY
    | _ => ParameterType.STRING

/-- Embeds `_get_enum_values` applied to `param.get('type')`. -/
def getEnumValues (enumCache : List (String × List String)) (pgType : Option String) : Option (List String) :=
  pgType.bind (fun t => enumCache.lookup t)

/-- Embeds `_get_json_schema`: only `json`/`jsonb` get the basic object
schema (`required` absent, `properties` the empty dict). -/
def getJsonSchema (pgType : Option String) : Option JsonSchema :=
  match pgType with
  | some "json" => some { properties := some [], additionalProperties := some true }
  | some "jsonb" => some { properties := some [], additionalProperties := some true }
  | _ => Option.none

/-- Embeds the per-parameter body of `_build_function_cache`:
`is_required = (mode == 'IN') and not default`, with Python truthiness on the
default value; missing names become `param_<i>` and missing positions `i+1`. -/
def expectedParamOf (enumCache : List (String × List String)) (i : Nat) (p : ParamDict) : ExpectedParameter :=
  { name := p.name.getD ("param_" ++ toString i)
    type := mapParameterType enumCache (p.type.getD "text")
    is_required := (p.mode.getD "IN" == "IN") && !(pyTruthyOpt p.default)
    position := p.position.getD (i + 1)
    enum_values := getEnumValues enumCache p.type
    json_schema := getJsonSchema p.type
    default_value := p.default
    description := p.description }

/-- Embeds `_build_function_cache`: dict from function name to its expected
parameters (a duplicate function name overwrites in place). -/
def buildFunctionCache (schema : SupabaseSchemaInfo) : List (String × List ExpectedParameter) :=
  let enumCache := buildEnumCache schema
  schema.functions.foldl
    (fun cache f =>
      dictSet cache f.name (f.parameters.enum.map (fun q => expectedParamOf enumCache q.1 q.2)))
    []

/-! ### Value predicates (`_is_valid_...`, `_infer_type`) -/

def isPyHexDigit (c : Char) : Bool :=
  ('0' ≤ c && c ≤ '9') || ('a' ≤ c && c ≤ 'f') || ('A' ≤ c && c ≤ 'F')

def isPyDigit (c : Char) : Bool :=
  '0' ≤ c && c ≤ '9'

/-- Consume exactly `n` characters satisfying `p`, returning the rest. -/
def takeRun (p : Char → Bool) : Nat → List Char → Option (List Char)
  | 0, rest => some rest
  | Nat.succ m, c :: rest => if p c then takeRun p m rest else Option.none
  | Nat.succ _, [] => Option.none

def expectChar (c : Char) : List Char → Option (List Char)
  | d :: rest => if d = c then some rest else Option.none
  | [] => Option.none

/-- The anchored UUID regex of `RPCParameterValidator.__init__`:
`^[0-9a-fA-F]{8}-..{4}-..{4}-..{4}-..{12}$`. -/
def uuidPatternMatch (s : String) : Bool :=
  match (do
    let r1 ← takeRun isPyHexDigit 8 s.data
    let r2 ← expectChar '-' r1
    let r3 ← takeRun isPyHexDigit 4 r2
    let r4 ← expectChar '-' r3
    let r5 ← takeRun isPyHexDigit 4 r4
    let r6 ← expectChar '-' r5
    let r7 ← takeRun isPyHexDigit 4 r6
    let r8 ← expectChar '-' r7
    takeRun isPyHexDigit 12 r8) with
  | some [] => true
  | _ => false

/-- Embeds `_is_valid_uuid`. -/
def isValidUuid : PyValue → Bool
  | .str s => uuidPatternMatch s
  | _ => false

/-- Characters stripped by Python `int(str)` around the literal. -/
def isPySpace (c : Char) : Bool :=
  c = ' ' || c = '\t' || c = '\n' || c = '\x0d' || c = '\x0b' || c = '\x0c'

/-- Digit run with optional single underscores between digits, as accepted by
Python `int(...)` after the sign. -/
def digitsUnderscoreRest : List Char → Bool
  | [] => true
  | '_' :: c :: rest => isPyDigit c && digitsUnderscoreRest rest
  | '_' :: [] => false
  | c :: rest => isPyDigit c && digitsUnderscoreRest rest

def digitsUnderscore : List Char → Bool
  | [] => false
  | c :: rest => isPyDigit c && digitsUnderscoreRest rest

/-- Whether Python `int(s)` succeeds on a string: optional surrounding
whitespace, optional sign, then base-10 digits (with underscore grouping). -/
def pyIntParseOk (s : String) : Bool :=
  let cs := (s.data.dropWhile isPySpace).reverse.dropWhile isPySpace |>.reverse
  match cs with
  | [] => false
  | c :: rest =>
    if c = '+' || c = '-' then digitsUnderscore rest else digitsUnderscore (c :: rest)

/-- Embeds `_is_valid_integer`.  Note `isinstance(value, int)` is satisfied by
Python booleans as well (`bool` subclasses `int`). -/
def isValidInteger : PyValue → Bool
  | .int _ => true
  | .bool _ => true
  | .str s => pyIntParseOk s
  | _ => false

/-- Embeds `_is_valid_boolean`. -/
def isValidBoolean : PyValue → Bool
  | .bool _ => true
  | .str s =>
    pyLower s = "true" || pyLower s = "false" || pyLower s = "0" || pyLower s = "1"
  | _ => false

/-- Time part `\d{2}:\d{2}:\d{2}` of the timestamp regexes. -/
def timeCore (cs : List Char) : Option (List Char) := do
  let r1 ← takeRun isPyDigit 2 cs
  let r2 ← expectChar ':' r1
  let r3 ← takeRun isPyDigit 2 r2
  let r4 ← expectChar ':' r3
  takeRun isPyDigit 2 r4

/-- Date part `\d{4}-\d{2}-\d{2}` of the timestamp regexes. -/
def dateCore (cs : List Char) : Option (List Char) := do
  let r1 ← takeRun isPyDigit 4 cs
  let r2 ← expectChar '-' r1
  let r3 ← takeRun isPyDigit 2 r2
  let r4 ← expectChar '-' r3
  takeRun isPyDigit 2 r4

def optionalZEnd : List Char → Bool
  | [] => true
  | ['Z'] => true
  | _ => false

/-- First timestamp pattern: `^\d{4}-\d{2}-\d{2}T\d{2}:\d{2}:\d{2}Z?$`. -/
def tsPattern1 (s : String) : Bool :=
  match (do
    let r1 ← dateCore s.data
    let r2 ← expectChar 'T' r1
    timeCore r2) with
  | some rest => optionalZEnd rest
  | _ => false

/-- Second timestamp pattern, with a `.` and three fractional digits. -/
def tsPattern2 (s : String) : Bool :=
  match (do
    let r1 ← dateCore s.data
    let r2 ← expectChar 'T' r1
    let r3 ← timeCore r2
    let r4 ← expectChar '.' r3
    takeRun isPyDigit 3 r4) with
  | some rest => optionalZEnd rest
  | _ => false

/-- Third timestamp pattern: `^\d{4}-\d{2}-\d{2} \d{2}:\d{2}:\d{2}$`. -/
def tsPattern3 (s : String) : Bool :=
  match (do
    let r1 ← dateCore s.data
    let r2 ← expectChar ' ' r1
    timeCore r2) with
  | some [] => true
  | _ => false

/-- Embeds `_is_valid_timestamp`. -/
def isValidTimestamp : PyValue → Bool
  | .str s => tsPattern1 s || tsPattern2 s || tsPattern3 s
  | _ => false

/-- The `json.loads`-success oracle for `_is_valid_json_object` on strings. -/
structure PyEnv where
  jsonLoadsOk : String → Bool

/-- Embeds `_is_valid_json_object`. -/
def isValidJsonObject (env : PyEnv) : PyValue → Bool
  | .dict _ => true
  | .list _ => true
  | .str s => env.jsonLoadsOk s
  | _ => false

/-- Embeds `_infer_type` (`bool` is tested before `int`, mirroring the
`isinstance` order in the source). -/
def inferType : PyValue → ParameterType
  | .bool _ => ParameterType.BOOLEAN
  | .int _ => ParameterType.INTEGER
  | .str s =>
    if uuidPatternMatch s then ParameterType.UUID
    else if tsPattern1 s || tsPattern2 s || tsPattern3 s then ParameterType.TIMESTAMP
    else ParameterType.STRING
  | .dict _ => ParameterType.JSON
  | .list _ => ParameterType.JSON
  | .pynone => ParameterType.STRING

/-! ### The five checks and `validate_rpc_call` -/

/-- Provided parameters: the Python `Dict[str, Any]` of a call site, as an
insertion-ordered association list with pairwise-distinct keys. -/
def ProvidedParams : Type := List (String × PyValue)

def providedKeys (provided : List (String × PyValue)) : List String :=
  provided.map Prod.fst

/-- The declared required parameters absent from the provided set, in
declaration order (the list comprehension of the too-few-parameters
suggestion). -/
def missingRequiredNames (expected : List ExpectedParameter) (provided : List (String × PyValue)) : List String :=
  (expected.filter (fun p => p.is_required && !(providedKeys provided).contains p.name)).map
    (fun p => p.name)

/-- Provided names that are not declared (the `set` difference of the
too-many-parameters suggestion; Python set iteration order is unspecified, we
fix first-occurrence order). -/
def extraParamNames (expected : List ExpectedParameter) (provided : List (String × PyValue)) : List String :=
  ((providedKeys provided).dedup).filter
    (fun k => !(expected.map (fun p => p.name)).contains k)

/-- The `required_count` local of `_validate_parameter_count`. -/
def requiredCountOf (expected : List ExpectedParameter) : Nat :=
  (expected.filter (fun p => p.is_required)).length

/-- The too-few-parameters issue of `_validate_parameter_count`. -/
def tooFewParamsError (expected : List ExpectedParameter)
    (provided : List (String × PyValue)) (lineNumber : Nat) : ParameterValidationError :=
  { parameter_name := "parameter_count"
    validation_type := ParameterValidationType.PARAMETER_COUNT_MISMATCH
    expected := "At least " ++ toString (requiredCountOf expected) ++ " parameters"
    actual := toString provided.length ++ " parameters"
    message := "Missing required parameters. Expected at least "
      ++ toString (requiredCountOf expected) ++ ", got " ++ toString provided.length
    line_number := lineNumber
    suggestion := "Add missing required parameters: "
      ++ commaJoin (missingRequiredNames expected provided) }

/-- The too-many-parameters issue of `_validate_parameter_count`. -/
def tooManyParamsError (expected : List ExpectedParameter)
    (provided : List (String × PyValue)) (lineNumber : Nat) : ParameterValidationError :=
  { parameter_name := "parameter_count"
    validation_type := ParameterValidationType.PARAMETER_COUNT_MISMATCH
    expected := "At most " ++ toString expected.length ++ " parameters"
    actual := toString provided.length ++ " parameters"
    message := "Too many parameters. Expected at most " ++ toString expected.length
      ++ ", got " ++ toString provided.length
    line_number := lineNumber
    suggestion := "Remove unexpected parameters: "
      ++ commaJoin (extraParamNames expected provided) }

/-- Embeds `_validate_parameter_count`. -/
def validateParameterCount (expected : List ExpectedParameter)
    (provided : List (String × PyValue)) (lineNumber : Nat) : List ParameterValidationError :=
  (if provided.length < requiredCountOf expected then
    [tooFewParamsError expected provided lineNumber]
  else []) ++
  (if provided.length > expected.length then
    [tooManyParamsError expected provided lineNumber]
  else [])

/-- Embeds `_validate_required_parameters`. -/
def validateRequiredParameters (expected : List ExpectedParameter)
    (provided : List (String × PyValue)) (lineNumber : Nat) : List ParameterValidationError :=
  (expected.filter (fun p => p.is_required && !(providedKeys provided).contains p.name)).map
    (fun p =>
      { parameter_name := p.name
        validation_type := ParameterValidationType.MISSING_REQUIRED
        expected := "Required parameter \x27" ++ p.name ++ "\x27 of type " ++ p.type.value
        actual := "Missing"
        message := "Required parameter \x27" ++ p.name ++ "\x27 is missing"
        line_number := lineNumber
        suggestion := "Add required parameter: " ++ p.name ++ ": " ++ p.type.value })

/-- The dict comprehension `{p.name: p for p in expected}` (a duplicate name
overwrites in place). -/
def expectedByName (expected : List ExpectedParameter) : List (String × ExpectedParameter) :=
  expected.foldl (fun m p => dictSet m p.name p) []

/-- Embeds `_validate_parameter_types`: per provided parameter matched by name,
a type-specific predicate for UUID, integer, boolean and timestamp. -/
def validateParameterTypes (expected : List ExpectedParameter)
    (provided : List (String × PyValue)) (lineNumber : Nat) : List ParameterValidationError :=
  let byName := expectedByName expected
  provided.flatMap (fun q =>
    let paramName := q.1
    let paramValue := q.2
    match byName.lookup paramName with
    | Option.none => []
    | some ep =>
      let inferred := inferType paramValue
      if ep.type = ParameterType.UUID then
        if !isValidUuid paramValue then
          [{ parameter_name := paramName
             validation_type := ParameterValidationType.TYPE_MISMATCH
             expected := "Valid UUID format"
             actual := "\x27" ++ pyStr paramValue ++ "\x27 (" ++ inferred.value ++ ")"
             message := "Parameter \x27" ++ paramName ++ "\x27 must be a valid UUID"
             line_number := lineNumber
             suggestion := "Use format: \x27xxxxxxxx-xxxx-xxxx-xxxx-xxxxxxxxxxxx\x27" }]
        else []
      else if ep.type = ParameterType.INTEGER then
        if !isValidInteger paramValue then
          [{ parameter_name := paramName
             validation_type := ParameterValidationType.TYPE_MISMATCH
             expected := "Integer"
             actual := "\x27" ++ pyStr paramValue ++ "\x27 (" ++ inferred.value ++ ")"
             message := "Parameter \x27" ++ paramName ++ "\x27 must be an integer"
             line_number := lineNumber
             suggestion := "Use an integer value like 123" }]
        else []
      else if ep.type = ParameterType.BOOLEAN then
        if !isValidBoolean paramValue then
          [{ parameter_name := paramName
             validation_type := ParameterValidationType.TYPE_MISMATCH
             expected := "Boolean"
             actual := "\x27" ++ pyStr paramValue ++ "\x27 (" ++ inferred.value ++ ")"
             message := "Parameter \x27" ++ paramName ++ "\x27 must be a boolean"
             line_number := lineNumber
             suggestion := "Use true or false" }]
        else []
      else if ep.type = ParameterType.TIMESTAMP then
        if !isValidTimestamp paramValue then
          [{ parameter_name := paramName
             validation_type := ParameterValidationType.TYPE_MISMATCH
             expected := "ISO timestamp"
             actual := "\x27" ++ pyStr paramValue ++ "\x27"
             message := "Parameter \x27" ++ paramName ++ "\x27 must be a valid timestamp"
             line_number := lineNumber
             suggestion := "Use ISO format: \x272024-01-01T00:00:00Z\x27" }]
        else []
      else [])

/-- Embeds `_validate_enum_values` (the guard is Python truthiness on
`enum_values`: `None` and the empty list are both skipped). -/
def validateEnumValues (expected : List ExpectedParameter)
    (provided : List (String × PyValue)) (lineNumber : Nat) : List ParameterValidationError :=
  let byName := expectedByName expected
  provided.flatMap (fun q =>
    let paramName := q.1
    let paramValue := q.2
    match byName.lookup paramName with
    | Option.none => []
    | some ep =>
      match ep.enum_values with
      | Option.none => []
      | some [] => []
      | some vs =>
        if ep.type = ParameterType.ENUM && !vs.contains (pyStr paramValue) then
          [{ parameter_name := paramName
             validation_type := ParameterValidationType.INVALID_ENUM
             expected := "One of: " ++ commaJoin vs
             actual := "\x27" ++ pyStr paramValue ++ "\x27"
             message := "Parameter \x27" ++ paramName ++ "\x27 has invalid enum value"
             line_number := lineNumber
             suggestion := "Use one of: " ++ commaJoin (vs.take 3) }]
        else [])

structure SchemaCheckError where
  expected : String
  actual : String
  message : String
  suggestion : String

/-- Embeds `_validate_json_schema` for the schema dicts produced by
`_get_json_schema` (non-dict values are rejected, required properties and
string-typed properties are checked one level deep). -/
def validateJsonSchema (value : PyValue) (schema : JsonSchema) (paramName : String) : List SchemaCheckError :=
  match value with
  | .dict fields =>
    (match schema.required with
     | Option.none => []
     | some reqs =>
       (reqs.filter (fun r => !(fields.map Prod.fst).contains r)).map (fun r =>
         { expected := "Required property: " ++ r
           actual := "Missing"
           message := "Missing required property " ++ r
           suggestion := "Add property: " ++ r })) ++
    (match schema.properties with
     | Option.none => []
     | some props =>
       props.flatMap (fun pr =>
         match fields.lookup pr.1 with
         | Option.none => []
         | some pv =>
           let expectedType := (pr.2.type).getD "any"
           if expectedType = "string" then
             match pv with
             | .str _ => []
             | _ =>
               [{ expected := pr.1 ++ ": string"
                  actual := pr.1 ++ ": " ++ pyTypeName pv
                  message := "Property " ++ pr.1 ++ " must be a string"
                  suggestion := "Use string value for " ++ pr.1 }]
           else []))
  | _ =>
    [{ expected := "JSON object"
       actual := pyTypeName value
       message := "Parameter " ++ paramName ++ " must be an object"
       suggestion := "Use object format: \x7bkey: \x22value\x22\x7d" }]

/-- Embeds `_validate_json_structures`. -/
def validateJsonStructures (env : PyEnv) (expected : List ExpectedParameter)
    (provided : List (String × PyValue)) (lineNumber : Nat) : List ParameterValidationError :=
  let byName := expectedByName expected
  provided.flatMap (fun q =>
    let paramName := q.1
    let paramValue := q.2
    match byName.lookup paramName with
    | Option.none => []
    | some ep =>
      if ep.type = ParameterType.JSON || ep.type = ParameterType.JSONB then
        if !isValidJsonObject env paramValue then
          [{ parameter_name := paramName
             validation_type := ParameterValidationType.INVALID_JSON_STRUCTURE
             expected := "Valid JSON object"
             actual := "\x27" ++ pyStr paramValue ++ "\x27"
             message := "Parameter \x27" ++ paramName ++ "\x27 must be a valid JSON object"
             line_number := lineNumber
             suggestion := "Use object format: \x7bkey: \x27value\x27\x7d" }]
        else
          match ep.json_schema with
          | Option.none => []
          | some schema =>
            (validateJsonSchema paramValue schema paramName).map (fun e =>
              { parameter_name := paramName
                validation_type := ParameterValidationType.INVALID_JSON_STRUCTURE
                expected := e.expected
                actual := e.actual
                message := e.message
                line_number := lineNumber
                suggestion := e.suggestion })
      else [])

/-- The single issue returned for a function name absent from the catalog. -/
def unknownFunctionError (cache : List (String × List ExpectedParameter))
    (functionName : String) (lineNumber : Nat) : ParameterValidationError :=
  { parameter_name := "function"
    validation_type := ParameterValidationType.TYPE_MISMATCH
    expected := "One of: " ++ commaJoin (cache.map Prod.fst)
    actual := functionName
    message := "RPC function \x27" ++ functionName ++ "\x27 not found"
    line_number := lineNumber
    suggestion := "Available functions: " ++ commaJoin ((cache.map Prod.fst).take 3) }

/-- Embeds `validate_rpc_call`: unknown function short-circuits with a single
issue; otherwise the five checks run in order and their findings are
concatenated. -/
def validateRpcCall (cache : List (String × List ExpectedParameter)) (env : PyEnv)
    (functionName : String) (provided : List (String × PyValue))
    (lineNumber : Nat) : List ParameterValidationError :=
  match cache.lookup functionName with
  | Option.none => [unknownFunctionError cache functionName lineNumber]
  | some expected =>
    validateParameterCount expected provided lineNumber ++
    validateRequiredParameters expected provided lineNumber ++
    validateParameterTypes expected provided lineNumber ++
    validateEnumValues expected provided lineNumber ++
    validateJsonStructures env expected provided lineNumber

end RpcValidator

namespace ComprehensiveValidator

/-! ## Overall confidence (`comprehensive_validator.py`)

Embeds the `Severity` and `DetectionType` enums, the `Detection` and
`ValidationReport` dataclasses (the `datetime` timestamp field is dropped) and
`_calculate_overall_confidence`.  Python floats are modelled as rationals; the
weights 1.0/0.8/0.6/0.4/0.2 and the divisions involved are all exactly
representable, so no claim in scope depends on binary rounding. -/

inductive Severity where
  | CRITICAL
  | HIGH
  | MEDIUM
  | LOW
  | INFO
deriving DecidableEq

inductive DetectionType where
  | COMPONENT_NOT_FOUND
  | HOOK_NOT_FOUND
  | SUPABASE_TABLE_NOT_FOUND
  | SUPABASE_FUNCTION_NOT_FOUND
  | RPC_PARAMETER_TYPE_MISMATCH
  | RPC_MISSING_REQUIRED_PARAM
  | RPC_INVALID_ENUM_VALUE
  | RPC_INVALID_JSON_STRUCTURE
  | RPC_PARAMETER_COUNT_MISMATCH
  | INCORRECT_SIGNATURE
  | INVALID_TYPE
  | BAD_PRACTICE
  | IMPORT_NOT_FOUND
  | METHOD_NOT_FOUND
  | ATTRIBUTE_NOT_FOUND
deriving DecidableEq

structure Detection where
  type : DetectionType
  severity : Severity
  message : String
  location : String
  line_number : Nat
  confidence : ℚ
  suggestion : Option String := Option.none
  context : List (String × String) := []
deriving DecidableEq

structure ValidationReport where
  script_path : String
  language : String
  overall_confidence : ℚ
  detections : List Detection := []
  frameworks_detected : List String := []
  statistics : List (String × Nat) := []
  recommendations : List String := []
deriving DecidableEq

/-- The severity weight table of `_calculate_overall_confidence`. -/
def severityWeight : Severity → ℚ
  | .CRITICAL => 1
  | .HIGH => 4/5
  | .MEDIUM => 3/5
  | .LOW => 2/5
  | .INFO => 1/5

/-- The `total_weight` sum of `_calculate_overall_confidence`. -/
def totalWeightOf (dets : List Detection) : ℚ :=
  (dets.map (fun d => severityWeight d.severity * d.confidence)).sum

/-- Embeds `_calculate_overall_confidence`. -/
def calculateOverallConfidence (report : ValidationReport) : ℚ :=
  if report.detections.isEmpty then 1
  else
    let totalWeight := totalWeightOf report.detections
    let maxPossible : ℚ := (report.detections.length : ℚ)
    if maxPossible = 0 then 1
    else max 0 (1 - totalWeight / (maxPossible * 2))

/-- The confidence formula exactly as the specification words it:
`max(0, 1 - (sum of severityWeight(d) * d.confidence) / (2 * number of
detections))`, with an empty detection set giving confidence 1.0. -/
def specOverallConfidence (report : ValidationReport) : ℚ :=
  if report.detections.isEmpty then 1
  else max 0 (1 - totalWeightOf report.detections / (2 * (report.detections.length : ℚ)))

end ComprehensiveValidator

namespace ParseRepoIntoNeo4j

/-! ## Graph construction (`parse_repo_into_neo4j.py`, `_create_graph`)

The property-graph store is modelled operationally.  A node instance is a
(label, key) pair at a position in the node list; `CREATE` appends a fresh
node unconditionally, `MERGE ... {key}` appends only when no node with that
label and key exists, and a two-sided `MATCH` followed by `CREATE`/`MERGE` of
an edge acts on the full cartesian product of the matched node instances, as
in Cypher.

`initialize` declares a uniqueness constraint on `File.path` (and on
`Class.full_name`, `Component.comp_id`, `Hook.hook_id`, which only ever meet
`MERGE` and cannot be violated).  A `CREATE` of a `File` whose `path` already
exists therefore raises; `_create_graph` catches any per-file failure and
continues with the next file, so the remaining statements for that file are
skipped.  There is no constraint on `Repository.name`, and the `Repository`
node is written with `CREATE`, never `MERGE`.

Only the key property of each node is tracked; the remaining `ON CREATE SET`
properties do not influence matching. -/

structure GraphNode where
  label : String
  key : String
deriving DecidableEq

structure GraphState where
  nodes : List GraphNode
  edges : List (Nat × String × Nat)
deriving DecidableEq

def emptyGraph : GraphState := { nodes := [], edges := [] }

def nodeMatches (n : GraphNode) (label key : String) : Bool :=
  n.label == label && n.key == key

/-- Indices of the node instances matched by `MATCH (n:label {key})`. -/
def matchNodes (st : GraphState) (label key : String) : List Nat :=
  (st.nodes.enum.filter (fun p => nodeMatches p.2 label key)).map Prod.fst

def nodeExists (st : GraphState) (label key : String) : Bool :=
  st.nodes.any (fun n => nodeMatches n label key)

/-- Cypher `CREATE (n:label {key})`. -/
def createNode (st : GraphState) (label key : String) : GraphState :=
  { st with nodes := st.nodes ++ [{ label := label, key := key }] }

/-- Cypher `MERGE (n:label {key})`. -/
def mergeNode (st : GraphState) (label key : String) : GraphState :=
  if nodeExists st label key then st else createNode st label key

def edgeCandidates (st : GraphState) (l1 k1 rel l2 k2 : String) : List (Nat × String × Nat) :=
  (matchNodes st l1 k1).flatMap (fun i => (matchNodes st l2 k2).map (fun j => (i, rel, j)))

/-- Two `MATCH` clauses followed by `CREATE`-ing an edge per result row. -/
def createEdges (st : GraphState) (l1 k1 rel l2 k2 : String) : GraphState :=
  { st with edges := st.edges ++ edgeCandidates st l1 k1 rel l2 k2 }

/-- Two `MATCH` clauses followed by `MERGE`-ing an edge per result row. -/
def mergeEdges (st : GraphState) (l1 k1 rel l2 k2 : String) : GraphState :=
  { st with
    edges := (edgeCandidates st l1 k1 rel l2 k2).foldl
      (fun es e => if es.contains e then es else es ++ [e]) st.edges }

/-! ### Composite identifiers

These are the f-strings of `_create_graph` that build each entity node's
unique key property. -/

/-- `method_id = f"{cls['full_name']}::{method['name']}"`. -/
def methodId (classFullName methodName : String) : String :=
  classFullName ++ "::" ++ methodName

/-- `attr_id = f"{cls['full_name']}::{attr['name']}"`. -/
def attrId (classFullName attrName : String) : String :=
  classFullName ++ "::" ++ attrName

/-- `func_id = f"{mod['file_path']}::{func['name']}"`. -/
def funcId (filePath funcName : String) : String :=
  filePath ++ "::" ++ funcName

/-- `comp_id = f"{mod['file_path']}::{comp['name']}"`. -/
def compId (filePath compName : String) : String :=
  filePath ++ "::" ++ compName

/-- `hook_id = f"{mod['file_path']}::{hook['name']}::{hash(str(hook))}"`.
Python `hash` of a string is salted per interpreter process; it enters the
model as the `hashFn` parameter of the ingestion functions. -/
def hookId (filePath hookName : String) (hashValue : Int) : String :=
  filePath ++ "::" ++ hookName ++ "::" ++ toString hashValue

/-! ### Module records (the dicts of `modules_data`) -/

structure MethodData where
  name : String

structure AttributeData where
  name : String

structure ClassData where
  name : String
  full_name : String
  methods : List MethodData := []
  attributes : List AttributeData := []

structure FunctionData where
  name : String
  full_name : String

structure ComponentData where
  name : String
  full_name : String

/-- A hook-call dict; `repr` stands for the Python `str(hook)` string that is
fed to `hash` when the hook node key is built. -/
structure HookCallData where
  name : String
  repr : String

structure ModuleData where
  file_path : String
  module_name : String
  classes : List ClassData := []
  functions : List FunctionData := []
  components : List ComponentData := []
  hook_calls : List HookCallData := []

/-- Steps 3a of `_create_graph`: `MERGE` a `Method` node and `MERGE` the
`HAS_METHOD` edge. -/
def processMethod (st : GraphState) (classFullName : String) (m : MethodData) : GraphState :=
  let mid := methodId classFullName m.name
  let st := mergeNode st "Method" mid
  mergeEdges st "Class" classFullName "HAS_METHOD" "Method" mid

/-- Steps 3b of `_create_graph`: `MERGE` an `Attribute` node and `MERGE` the
`HAS_ATTRIBUTE` edge. -/
def processAttribute (st : GraphState) (classFullName : String) (a : AttributeData) : GraphState :=
  let aid := attrId classFullName a.name
  let st := mergeNode st "Attribute" aid
  mergeEdges st "Class" classFullName "HAS_ATTRIBUTE" "Attribute" aid

/-- Step 3 of `_create_graph`: `MERGE` the `Class` node, `MERGE` the `DEFINES`
edge, then methods and attributes. -/
def processClass (st : GraphState) (filePath : String) (cls : ClassData) : GraphState :=
  let st := mergeNode st "Class" cls.full_name
  let st := mergeEdges st "File" filePath "DEFINES" "Class" cls.full_name
  let st := cls.methods.foldl (fun s m => processMethod s cls.full_name m) st
  cls.attributes.foldl (fun s a => processAttribute s cls.full_name a) st

/-- Step 4 of `_create_graph`. -/
def processFunction (st : GraphState) (filePath : String) (f : FunctionData) : GraphState :=
  let fid := funcId filePath f.name
  let st := mergeNode st "Function" fid
  mergeEdges st "File" filePath "DEFINES" "Function" fid

/-- Step 5 of `_create_graph`. -/
def processComponent (st : GraphState) (filePath : String) (c : ComponentData) : GraphState :=
  let cid := compId filePath c.name
  let st := mergeNode st "Component" cid
  mergeEdges st "File" filePath "DEFINES" "Component" cid

/-- Step 6 of `_create_graph`. -/
def processHook (hashFn : String → Int) (st : GraphState) (filePath : String)
    (h : HookCallData) : GraphState :=
  let hid := hookId filePath h.name (hashFn h.repr)
  let st := mergeNode st "Hook" hid
  mergeEdges st "File" filePath "USES" "Hook" hid

/-- The per-module body of `_create_graph`.  The first statement is
`CREATE (f:File {path})`; if a `File` node with that path already exists the
uniqueness constraint fires, the per-file `except` block logs and `continue`s,
and none of the module's statements take effect. -/
def processModule (hashFn : String → Int) (repoName : String) (st : GraphState)
    (m : ModuleData) : GraphState :=
  if nodeExists st "File" m.file_path then st
  else
    let st := createNode st "File" m.file_path
    let st := createEdges st "Repository" repoName "CONTAINS" "File" m.file_path
    let st := m.classes.foldl (fun s c => processClass s m.file_path c) st
    let st := m.functions.foldl (fun s f => processFunction s m.file_path f) st
    let st := m.components.foldl (fun s c => processComponent s m.file_path c) st
    m.hook_calls.foldl (fun s h => processHook hashFn s m.file_path h) st

/-- Embeds `_create_graph`: `CREATE` (not `MERGE`) one `Repository` node, then
process every module. -/
def createGraph (hashFn : String → Int) (repoName : String) (modules : List ModuleData)
    (st : GraphState) : GraphState :=
  modules.foldl (processModule hashFn repoName) (createNode st "Repository" repoName)

end ParseRepoIntoNeo4j

namespace TypescriptAnalyzer

/-! ## TypeScript analyzer (`typescript_analyzer.py`)

`_parse_with_esprima` shells out to node/babel and either returns a parsed
JSON syntax tree or `None`; it enters the model as an `Option Json` oracle
parameter of `analyzeTypescriptFile`.  The six `_extract_*` passes walk that
JSON tree; they are embedded below.  Two systematic modelling conventions:

* JSON numbers are modelled as integers (source line numbers are the only
  numbers the extractors read);
* `.get(...)` on a value that is not a dict is modelled as returning the
  default.  In Python the unguarded chains (in `_extract_hooks`,
  `_extract_function_calls`, `_extract_exports`) would raise instead and the
  caller catches the exception, keeping the entries collected so far; no node
  shape produced by a JSON parser and exercised by a claim hits that path.

The Python dataclass field `type_annotations` is spelled `type_annots` here.
-/

inductive Json where
  | null
  | jbool (b : Bool)
  | jnum (n : Int)
  | jstr (s : String)
  | jarr (items : List Json)
  | jobj (fields : List (String × Json))

/-- Truthiness of a decoded JSON value. -/
def jsonTruthy : Json → Bool
  | .null => false
  | .jbool b => b
  | .jnum n => !(n == 0)
  | .jstr s => !(s == "")
  | .jarr [] => false
  | .jarr (_ :: _) => true
  | .jobj [] => false
  | .jobj (_ :: _) => true

/-- `node.get(k)` on a decoded JSON value. -/
def getField (j : Json) (k : String) : Option Json :=
  match j with
  | .jobj fs => fs.lookup k
  | _ => Option.none

def getField2 (j : Json) (k1 k2 : String) : Option Json :=
  (getField j k1).bind (fun x => getField x k2)

/-- A string field with default (`node.get(k, d)` read as a string). -/
def jstrD (j : Option Json) (d : String) : String :=
  match j with
  | some (.jstr s) => s
  | _ => d

/-- An array field read with default `[]`. -/
def jarrD (j : Option Json) : List Json :=
  match j with
  | some (.jarr xs) => xs
  | _ => []

/-- Whether a field holds the string `s` (`node.get('type') == s`). -/
def fieldIs (j : Json) (k s : String) : Bool :=
  match getField j k with
  | some (.jstr t) => t == s
  | _ => false

/-- The `node.get('loc', {}).get('start', {}).get('line', 0)` chain. -/
def getLineOf (node : Json) : Int :=
  match getField2 node "loc" "start" with
  | some st =>
    match getField st "line" with
    | some (.jnum n) => n
    | _ => 0
  | Option.none => 0

mutual

/-- Decoded JSON as a Python value (`json.loads` output shape). -/
def jsonToPy : Json → PyValue
  | .null => PyValue.pynone
  | .jbool b => PyValue.bool b
  | .jnum n => PyValue.int n
  | .jstr s => PyValue.str s
  | .jarr xs => PyValue.list (jsonToPyList xs)
  | .jobj fs => PyValue.dict (jsonToPyFields fs)

def jsonToPyList : List Json → List PyValue
  | [] => []
  | x :: rest => jsonToPy x :: jsonToPyList rest

def jsonToPyFields : List (String × Json) → List (String × PyValue)
  | [] => []
  | (k, v) :: rest => (k, jsonToPy v) :: jsonToPyFields rest

end

/-- Python `str` of a decoded JSON value (used in f-strings). -/
def jsonPyStr (j : Json) : String :=
  pyStr (jsonToPy j)

mutual

/-- The `walk_ast` recursion scheme shared by every extractor: process a dict
node with `visit` (which also says whether to recurse into its values), walk
every element of a list, ignore scalars. -/
def walkNode {α : Type} (visit : Json → List α × Bool) : Json → List α
  | .jobj fs =>
    let r := visit (.jobj fs)
    r.1 ++ (if r.2 then walkFields visit fs else [])
  | .jarr xs => walkItems visit xs
  | _ => []

def walkFields {α : Type} (visit : Json → List α × Bool) : List (String × Json) → List α
  | [] => []
  | (_, v) :: rest => walkNode visit v ++ walkFields visit rest

def walkItems {α : Type} (visit : Json → List α × Bool) : List Json → List α
  | [] => []
  | v :: rest => walkNode visit v ++ walkItems visit rest

end

structure ImportInfo where
  module : String
  name : String
  «alias» : Option String := Option.none
  is_default_import : Bool := false
  is_namespace_import : Bool := false
  line_number : Int := 0
deriving DecidableEq

structure ComponentInfo where
  name : String
  type : String
  props : List String
  hooks : List String
  line_number : Int
  is_exported : Bool := false
deriving DecidableEq

structure HookCall where
  hook_name : String
  args : List String
  line_number : Int
  variable_name : Option String := Option.none
deriving DecidableEq

structure FunctionCall where
  function_name : String
  args : List String
  line_number : Int
  object_name : Option String := Option.none
deriving DecidableEq

structure TypeAnnot where
  variable_name : String
  type_name : String
  line_number : Int
  is_interface : Bool := false
deriving DecidableEq

structure AnalysisResult where
  file_path : String
  imports : List ImportInfo := []
  components : List ComponentInfo := []
  hook_calls : List HookCall := []
  function_calls : List FunctionCall := []
  type_annots : List TypeAnnot := []
  exports : List String := []
  errors : List String := []
deriving DecidableEq

/-- The `self.react_hooks` set of `TypeScriptAnalyzer.__init__`. -/
def reactHooks : List String :=
  ["useState", "useEffect", "useContext", "useReducer", "useCallback",
   "useMemo", "useRef", "useImperativeHandle", "useLayoutEffect",
   "useDebugValue", "useDeferredValue", "useTransition", "useId",
   "useSyncExternalStore", "useInsertionEffect", "useOptimistic"]

/-- ASCII reading of Python `str.isidentifier`. -/
def pyIsIdentifier (s : String) : Bool :=
  match s.data with
  | [] => false
  | c :: rest => (c.isAlpha || c = '_') && rest.all (fun d => d.isAlphanum || d = '_')

/-- Embeds `_is_component_name`. -/
def isComponentName (s : String) : Bool :=
  match s.data with
  | [] => false
  | c :: _ => c.isUpper && pyIsIdentifier s

/-- Embeds `_extract_props_from_params`. -/
def extractPropsFromParams (params : List Json) : List String :=
  params.flatMap (fun p =>
    if fieldIs p "type" "Identifier" then [jstrD (getField p "name") ""]
    else if fieldIs p "type" "ObjectPattern" then
      (jarrD (getField p "properties")).filterMap (fun pr =>
        if fieldIs pr "type" "Property" then some (jstrD (getField2 pr "key" "name") "")
        else Option.none)
    else [])

/-- Embeds `_extract_arg_value`. -/
def extractArgValue (arg : Json) : String :=
  if !jsonTruthy arg then ""
  else
    match getField arg "type" with
    | some (.jstr "Literal") =>
      (match getField arg "value" with
       | some v => jsonPyStr v
       | Option.none => "")
    | some (.jstr "Identifier") => jstrD (getField arg "name") ""
    | some (.jstr "MemberExpression") =>
      jstrD (getField2 arg "object" "name") "" ++ "." ++ jstrD (getField2 arg "property" "name") ""
    | some t => "<" ++ jsonPyStr t ++ ">"
    | Option.none => "<None>"

/-- One import specifier of an `ImportDeclaration` (`continue` on
non-matching shapes becomes `Option.none`). -/
def specToImport (source : String) (line : Int) (spec : Json) : Option ImportInfo :=
  match spec with
  | .jobj _ =>
    if fieldIs spec "type" "ImportDefaultSpecifier" then
      some { module := source, name := jstrD (getField2 spec "local" "name") "",
             is_default_import := true, line_number := line }
    else if fieldIs spec "type" "ImportSpecifier" then
      let importedName := jstrD (getField2 spec "imported" "name") ""
      let localName := jstrD (getField2 spec "local" "name") ""
      some { module := source, name := importedName,
             «alias» := if localName ≠ importedName then some localName else Option.none,
             line_number := line }
    else if fieldIs spec "type" "ImportNamespaceSpecifier" then
      some { module := source, name := jstrD (getField2 spec "local" "name") "",
             is_namespace_import := true, line_number := line }
    else Option.none
  | _ => Option.none

/-- The per-node body of `_extract_imports`; a falsy `source` returns early
without recursing into the children. -/
def importVisitor (node : Json) : List ImportInfo × Bool :=
  if fieldIs node "type" "ImportDeclaration" then
    match getField node "source" with
    | Option.none => ([], false)
    | some src =>
      if !jsonTruthy src then ([], false)
      else
        let source := jstrD (getField src "value") ""
        let line := getLineOf node
        ((jarrD (getField node "specifiers")).filterMap (specToImport source line), true)
  else ([], true)

/-- Embeds `_extract_imports`. -/
def extractImports (ast : Json) : List ImportInfo :=
  walkNode importVisitor ast

/-- The per-node body of `_extract_components`. -/
def componentVisitor (node : Json) : List ComponentInfo × Bool :=
  if fieldIs node "type" "FunctionDeclaration" then
    let name := jstrD (getField2 node "id" "name") ""
    if isComponentName name then
      ([{ name := name, type := "function",
          props := extractPropsFromParams (jarrD (getField node "params")),
          hooks := [], line_number := getLineOf node, is_exported := false }], true)
    else ([], true)
  else if fieldIs node "type" "VariableDeclaration" then
    ((jarrD (getField node "declarations")).filterMap (fun decl =>
      match decl with
      | .jobj _ =>
        match getField decl "init" with
        | some init =>
          if fieldIs init "type" "ArrowFunctionExpression" then
            let name := jstrD (getField2 decl "id" "name") ""
            if isComponentName name then
              some { name := name, type := "arrow",
                     props := extractPropsFromParams (jarrD (getField init "params")),
                     hooks := [], line_number := getLineOf node, is_exported := false }
            else Option.none
          else Option.none
        | Option.none => Option.none
      | _ => Option.none), true)
  else if fieldIs node "type" "ClassDeclaration" then
    let name := jstrD (getField2 node "id" "name") ""
    if isComponentName name then
      ([{ name := name, type := "class", props := [], hooks := [],
          line_number := getLineOf node, is_exported := false }], true)
    else ([], true)
  else ([], true)

/-- Embeds `_extract_components`. -/
def extractComponents (ast : Json) : List ComponentInfo :=
  walkNode componentVisitor ast

/-- The per-node body of `_extract_hooks`. -/
def hookVisitor (node : Json) : List HookCall × Bool :=
  if fieldIs node "type" "CallExpression" then
    let callee := (getField node "callee").getD (.jobj [])
    if fieldIs callee "type" "Identifier" then
      let name := jstrD (getField callee "name") ""
      if reactHooks.contains name || name.startsWith "use" then
        ([{ hook_name := name,
            args := (jarrD (getField node "arguments")).map extractArgValue,
            line_number := getLineOf node }], true)
      else ([], true)
    else ([], true)
  else ([], true)

/-- Embeds `_extract_hooks`. -/
def extractHooks (ast : Json) : List HookCall :=
  walkNode hookVisitor ast

/-- The per-node body of `_extract_function_calls`. -/
def callVisitor (node : Json) : List FunctionCall × Bool :=
  if fieldIs node "type" "CallExpression" then
    let callee := (getField node "callee").getD (.jobj [])
    let line := getLineOf node
    let args := (jarrD (getField node "arguments")).map extractArgValue
    if fieldIs callee "type" "Identifier" then
      let name := jstrD (getField callee "name") ""
      if !(reactHooks.contains name || name.startsWith "use") then
        ([{ function_name := name, args := args, line_number := line }], true)
      else ([], true)
    else if fieldIs callee "type" "MemberExpression" then
      ([{ function_name := jstrD (getField2 callee "property" "name") "",
          args := args, line_number := line,
          object_name := some (jstrD (getField2 callee "object" "name") "") }], true)
    else ([], true)
  else ([], true)

/-- Embeds `_extract_function_calls`. -/
def extractFunctionCalls (ast : Json) : List FunctionCall :=
  walkNode callVisitor ast

/-- The per-node body of `_extract_exports`. -/
def exportVisitor (node : Json) : List String × Bool :=
  if fieldIs node "type" "ExportDefaultDeclaration" then
    let decl := (getField node "declaration").getD (.jobj [])
    if fieldIs decl "type" "Identifier" then
      ([jstrD (getField decl "name") ""], true)
    else ([], true)
  else if fieldIs node "type" "ExportNamedDeclaration" then
    match getField node "declaration" with
    | some decl =>
      if !jsonTruthy decl then ([], true)
      else if fieldIs decl "type" "FunctionDeclaration" then
        ([jstrD (getField2 decl "id" "name") ""], true)
      else if fieldIs decl "type" "VariableDeclaration" then
        ((jarrD (getField decl "declarations")).map
          (fun d => jstrD (getField2 d "id" "name") ""), true)
      else ([], true)
    | Option.none => ([], true)
  else ([], true)

/-- Embeds `_extract_exports`. -/
def extractExports (ast : Json) : List String :=
  walkNode exportVisitor ast

/-- Whether `content.strip()` is falsy, i.e. the file is blank: every
character is whitespace. -/
def pyStripBlank (s : String) : Bool :=
  s.data.all RpcValidator.isPySpace

/-- Embeds `analyze_typescript_file` given the file content (file input is
external) and the outcome of `_parse_with_esprima` (the out-of-process AST
producer): blank content returns an empty result; a producer failure makes the
method return `None` at the `if not ast_json: return None` line; on success
the six extraction passes populate the result (`_extract_type_annotations` is
`pass` in the source and contributes nothing). -/
def analyzeTypescriptFile (producerResult : Option Json) (content : String)
    (filePath : String) : Option AnalysisResult :=
  let result0 : AnalysisResult := { file_path := filePath }
  if pyStripBlank content then some result0
  else
    match producerResult with
    | Option.none => Option.none
    | some ast =>
      some { result0 with
        imports := extractImports ast
        components := extractComponents ast
        hook_calls := extractHooks ast
        function_calls := extractFunctionCalls ast
        type_annots := []
        exports := extractExports ast }

end TypescriptAnalyzer

/-! ## Claim theorems -/

open RpcValidator SupabaseAnalyzer ComprehensiveValidator ParseRepoIntoNeo4j TypescriptAnalyzer

/-- C7 failing input: a syntactically invalid component-language file on which
the external AST producer fails (`_parse_with_esprima` returns `None`). -/
theorem analyzer_returns_none_on_producer_failure :
    analyzeTypescriptFile Option.none "const = ;" "src/Broken.tsx" = Option.none := by
  decide

/-- C5: for every validation report, `_calculate_overall_confidence` computes
exactly `max(0, 1 - (sum of severityWeight(d) * d.confidence) / (2 * number
of detections))`, and an empty detection set gives confidence 1.0. -/
theorem overall_confidence_matches_spec_formula (report : ValidationReport) :
    calculateOverallConfidence report = specOverallConfidence report := by
  unfold calculateOverallConfidence specOverallConfidence
  by_cases h : report.detections.isEmpty
  · simp [h]
  · have hne : report.detections ≠ [] := by simpa [List.isEmpty_iff] using h
    have hlen : ((report.detections.length : ℚ)) ≠ 0 := by
      exact_mod_cast fun h0 => hne (List.length_eq_zero.mp h0)
    simp only [h, if_false, Bool.false_eq_true, hlen, if_neg hlen]
    rw [mul_comm]

/-- A detection record with only the confidence-relevant fields varying. -/
def mkDetection (sev : Severity) (conf : ℚ) : Detection :=
  { type := DetectionType.BAD_PRACTICE, severity := sev, message := "issue",
    location := "src/App.tsx", line_number := 1, confidence := conf }

/-- A report holding the given detections. -/
def reportWith (dets : List Detection) : ValidationReport :=
  { script_path := "src/App.tsx", language := "typescript",
    overall_confidence := 0, detections := dets }

/-- C6 counterexample: appending an INFO detection (weight 0.2, confidence 1)
to a report holding one CRITICAL detection (weight 1.0, confidence 1) raises
the overall confidence from 0.5 to 0.7, contradicting the claimed
monotonicity. -/
theorem confidence_monotonicity_counterexample :
    calculateOverallConfidence (reportWith [mkDetection Severity.CRITICAL 1]) <
      calculateOverallConfidence
        (reportWith [mkDetection Severity.CRITICAL 1, mkDetection Severity.INFO 1]) := by
  norm_num [calculateOverallConfidence, reportWith, mkDetection, totalWeightOf, severityWeight]

theorem severityWeight_nonneg (s : Severity) : 0 ≤ severityWeight s := by
  cases s <;> norm_num [severityWeight]

theorem totalWeightOf_append_single (dets : List Detection) (d : Detection) :
    totalWeightOf (dets ++ [d]) = totalWeightOf dets + severityWeight d.severity * d.confidence := by
  simp [totalWeightOf]

theorem calcConf_of_ne_nil (dets : List Detection) (h : dets ≠ []) :
    calculateOverallConfidence (reportWith dets) =
      max 0 (1 - totalWeightOf dets / ((dets.length : ℚ) * 2)) := by
  unfold calculateOverallConfidence reportWith
  have hk : ¬ dets.isEmpty = true := by simpa [List.isEmpty_iff] using h
  have hlen : ((dets.length : ℚ)) ≠ 0 := by
    exact_mod_cast fun h0 => h (List.length_eq_zero.mp h0)
  simp [hk, hlen]

/-- C6 amended: a report with zero detections has confidence exactly 1.0, and
appending a detection whose severity-weighted confidence is at least the mean
severity-weighted confidence of the existing detections (in particular,
appending any nonnegative-confidence detection to an empty report) never
increases the overall confidence.  Appending a below-average detection can
strictly increase it, because the formula divides by the detection count. -/
theorem confidence_monotone_above_mean (dets : List Detection) (d : Detection)
    (h0 : 0 ≤ d.confidence)
    (h1 : totalWeightOf dets ≤ severityWeight d.severity * d.confidence * dets.length) :
    calculateOverallConfidence (reportWith (dets ++ [d])) ≤
        calculateOverallConfidence (reportWith dets)
      ∧ calculateOverallConfidence (reportWith []) = 1 := by
  refine ⟨?_, by simp [calculateOverallConfidence, reportWith]⟩
  have hx : 0 ≤ severityWeight d.severity * d.confidence :=
    mul_nonneg (severityWeight_nonneg d.severity) h0
  cases dets with
  | nil =>
    rw [List.nil_append, calcConf_of_ne_nil [d] (by simp)]
    have h1 : calculateOverallConfidence (reportWith []) = 1 := by
      simp [calculateOverallConfidence, reportWith]
    rw [h1]
    apply max_le
    · norm_num
    · have : (0 : ℚ) ≤ totalWeightOf [d] := by
        simpa [totalWeightOf] using hx
      have hlen : (([d] : List Detection).length : ℚ) * 2 = 2 := by norm_num
      rw [hlen]
      have : 0 ≤ totalWeightOf [d] / 2 := by positivity
      linarith
  | cons a l =>
    rw [calcConf_of_ne_nil ((a :: l) ++ [d]) (by simp), calcConf_of_ne_nil (a :: l) (by simp)]
    have hn : (1 : ℚ) ≤ ((a :: l).length : ℚ) := by
      exact_mod_cast Nat.succ_le_of_lt (by simp)
    have hlen2 : (((a :: l) ++ [d]).length : ℚ) = ((a :: l).length : ℚ) + 1 := by
      push_cast [List.length_append, List.length_singleton]
      norm_num
    rw [totalWeightOf_append_single, hlen2]
    apply max_le_max le_rfl
    have hdiv : totalWeightOf (a :: l) / (((a :: l).length : ℚ) * 2) ≤
        (totalWeightOf (a :: l) + severityWeight d.severity * d.confidence) /
          ((((a :: l).length : ℚ) + 1) * 2) := by
      rw [div_le_div_iff₀ (by positivity) (by positivity)]
      nlinarith [h1, hn]
    linarith

/-- Witness for `confidence_monotone_above_mean` at a concrete input:
appending a CRITICAL confidence-1 detection to a report already containing one
never increases the confidence, and the empty report has confidence 1. -/
theorem confidence_monotone_above_mean_witness :
    calculateOverallConfidence
        (reportWith ([mkDetection Severity.CRITICAL 1] ++ [mkDetection Severity.CRITICAL 1])) ≤
        calculateOverallConfidence (reportWith [mkDetection Severity.CRITICAL 1])
      ∧ calculateOverallConfidence (reportWith []) = 1 :=
  confidence_monotone_above_mean [mkDetection Severity.CRITICAL 1]
    (mkDetection Severity.CRITICAL 1) (by norm_num [mkDetection])
    (by norm_num [mkDetection, totalWeightOf, severityWeight])

/-- A string free of the colon character used by the `::` key separator. -/
def ColonFree (s : String) : Prop := ∀ c ∈ s.data, c ≠ ':'

instance (s : String) : Decidable (ColonFree s) :=
  inferInstanceAs (Decidable (∀ c ∈ s.data, c ≠ ':'))

theorem colon_sep_chain_inj : ∀ (a c b d : List Char),
    (∀ x ∈ a, x ≠ ':') → (∀ x ∈ c, x ≠ ':') →
    a ++ ':' :: ':' :: b = c ++ ':' :: ':' :: d → a = c ∧ b = d := by
  intro a
  induction a with
  | nil =>
    intro c b d _ hc h
    cases c with
    | nil =>
      simp only [List.nil_append, List.cons.injEq, true_and] at h
      exact ⟨rfl, h⟩
    | cons y ys =>
      exfalso
      simp only [List.nil_append, List.cons_append, List.cons.injEq] at h
      exact hc y (List.mem_cons_self y ys) h.1.symm
  | cons x xs ih =>
    intro c b d ha hc h
    cases c with
    | nil =>
      exfalso
      simp only [List.nil_append, List.cons_append, List.cons.injEq] at h
      exact ha x (List.mem_cons_self x xs) h.1
    | cons y ys =>
      simp only [List.cons_append, List.cons.injEq] at h
      have hrec := ih ys b d (fun z hz => ha z (List.mem_cons_of_mem x hz))
        (fun z hz => hc z (List.mem_cons_of_mem y hz)) h.2
      exact ⟨by rw [h.1, hrec.1], hrec.2⟩

theorem sep_join_inj (a b c d : String) (ha : ColonFree a) (hc : ColonFree c) :
    a ++ "::" ++ b = c ++ "::" ++ d ↔ a = c ∧ b = d := by
  constructor
  · intro h
    have hdata : a.data ++ ':' :: ':' :: b.data = c.data ++ ':' :: ':' :: d.data := by
      have h1 := congrArg String.data h
      simpa [String.data_append, List.append_assoc] using h1
    have h2 := colon_sep_chain_inj a.data c.data b.data d.data ha hc hdata
    exact ⟨String.ext h2.1, String.ext h2.2⟩
  · rintro ⟨rfl, rfl⟩
    rfl

/-- C4 counterexample: the composite method identifiers of two different
entities (class `A` with method `b::c`, versus class `A::b` with method `c`)
are the same string, so composite identifiers of different entities can
collide. -/
theorem composite_key_collision_counterexample :
    methodId "A" "b::c" = methodId "A::b" "c"
      ∧ ("A", "b::c") ≠ (("A::b", "c") : String × String) := by
  refine ⟨rfl, ?_⟩
  decide

/-- C4 amended: composite identifiers are deterministic string functions of
the entity coordinates, and for entities of the same kind whose constituent
strings contain no colon (the separator character) the Method, Attribute,
Function and Component identifier builders are injective: equal key strings
force equal coordinates.  Without that restriction two different entities can
share a key (see the counterexample), and a Function and a Component with the
same file path and name always receive the same key string. -/
theorem composite_key_injective_of_colon_free (a b c d : String)
    (ha : ColonFree a) (hc : ColonFree c) :
    (methodId a b = methodId c d ↔ a = c ∧ b = d)
    ∧ (attrId a b = attrId c d ↔ a = c ∧ b = d)
    ∧ (funcId a b = funcId c d ↔ a = c ∧ b = d)
    ∧ (compId a b = compId c d ↔ a = c ∧ b = d) :=
  ⟨sep_join_inj a b c d ha hc, sep_join_inj a b c d ha hc,
   sep_join_inj a b c d ha hc, sep_join_inj a b c d ha hc⟩

/-- Witness for `composite_key_injective_of_colon_free` at concrete
colon-free coordinates. -/
theorem composite_key_injective_of_colon_free_witness :
    (methodId "models.User" "save" = methodId "models.User" "save" ↔
        "models.User" = "models.User" ∧ "save" = "save")
    ∧ (attrId "models.User" "save" = attrId "models.User" "save" ↔
        "models.User" = "models.User" ∧ "save" = "save")
    ∧ (funcId "models.User" "save" = funcId "models.User" "save" ↔
        "models.User" = "models.User" ∧ "save" = "save")
    ∧ (compId "models.User" "save" = compId "models.User" "save" ↔
        "models.User" = "models.User" ∧ "save" = "save") :=
  composite_key_injective_of_colon_free "models.User" "save" "models.User" "save"
    (by decide) (by decide)

/-! ### C8 concrete scenario -/

/-- The catalog of the missing-required/bad-enum scenario: one function `f`
with required parameters `user_id uuid` and `range date_range_type`, the
latter an enum with values 7d/30d/90d/1y. -/
def scenarioSchema : SupabaseSchemaInfo :=
  { project_url := "test"
    functions := [
      { name := "f", schema := "public", return_type := "json",
        parameters := [
          { name := some "user_id", type := some "uuid", mode := some "IN",
            position := some 1 },
          { name := some "range", type := some "date_range_type", mode := some "IN",
            position := some 2 }] }]
    enums := [{ name := "date_range_type", values := ["7d", "30d", "90d", "1y"] }] }

/-- A `json.loads` oracle; no parameter in the scenario has a JSON type, so
its value is irrelevant. -/
def scenarioEnv : PyEnv := { jsonLoadsOk := fun _ => false }

def scenarioUuid : String := "123e4567-e89b-12d3-a456-426614174000"

/-- Issues for the call providing only a valid `user_id`. -/
def scenarioCall1 : List ParameterValidationError :=
  validateRpcCall (buildFunctionCache scenarioSchema) scenarioEnv "f"
    [("user_id", PyValue.str scenarioUuid)] 0

/-- Issues for the call providing a valid `user_id` and `range = "12h"`. -/
def scenarioCall2 : List ParameterValidationError :=
  validateRpcCall (buildFunctionCache scenarioSchema) scenarioEnv "f"
    [("user_id", PyValue.str scenarioUuid), ("range", PyValue.str "12h")] 0

/-- C8: with catalog function `f(user_id uuid required, range enum required)`,
the call `\x7buser_id: <uuid>\x7d` yields exactly one missing-required issue
(for `range`) and exactly one count-mismatch issue, and the call
`\x7buser_id: <uuid>, range: "12h"\x7d` yields exactly one invalid-enum issue
(for `range`) and zero count-mismatch or missing-required issues. -/
theorem missing_required_and_bad_enum_scenario :
    ((scenarioCall1.filter
        (fun e => e.validation_type == ParameterValidationType.MISSING_REQUIRED)).map
          (fun e => e.parameter_name) = ["range"]
      ∧ scenarioCall1.countP
          (fun e => e.validation_type == ParameterValidationType.PARAMETER_COUNT_MISMATCH) = 1
      ∧ scenarioCall1.length = 2)
    ∧ ((scenarioCall2.filter
        (fun e => e.validation_type == ParameterValidationType.INVALID_ENUM)).map
          (fun e => e.parameter_name) = ["range"]
      ∧ scenarioCall2.countP
          (fun e => e.validation_type == ParameterValidationType.PARAMETER_COUNT_MISMATCH) = 0
      ∧ scenarioCall2.countP
          (fun e => e.validation_type == ParameterValidationType.MISSING_REQUIRED) = 0
      ∧ scenarioCall2.length = 1) := by
  decide

/-- C2: looking up a function name absent from the catalog returns exactly the
single unknown-function issue — whatever parameters were supplied — whose
message reports the function as not found and whose suggestion lists at most
the first three known function names. -/
theorem unknown_function_short_circuit
    (cache : List (String × List ExpectedParameter)) (env : PyEnv)
    (fname : String) (provided : List (String × PyValue)) (line : Nat)
    (h : cache.lookup fname = Option.none) :
    validateRpcCall cache env fname provided line = [unknownFunctionError cache fname line]
      ∧ (unknownFunctionError cache fname line).message =
          "RPC function \x27" ++ fname ++ "\x27 not found"
      ∧ (unknownFunctionError cache fname line).suggestion =
          "Available functions: " ++ commaJoin ((cache.map Prod.fst).take 3)
      ∧ ((cache.map Prod.fst).take 3).length ≤ 3 := by
  refine ⟨?_, rfl, rfl, List.length_take_le 3 _⟩
  simp [validateRpcCall, h]

/-- Witness for `unknown_function_short_circuit`: a catalog with four known
functions and a call to an absent one with two supplied parameters. -/
theorem unknown_function_short_circuit_witness :
    validateRpcCall
        [("f1", []), ("f2", []), ("f3", []), ("f4", [])] scenarioEnv "ghost"
        [("a", PyValue.int 1), ("b", PyValue.int 2)] 5 =
      [unknownFunctionError [("f1", []), ("f2", []), ("f3", []), ("f4", [])] "ghost" 5]
      ∧ (unknownFunctionError [("f1", []), ("f2", []), ("f3", []), ("f4", [])] "ghost" 5).message =
          "RPC function \x27" ++ "ghost" ++ "\x27 not found"
      ∧ (unknownFunctionError [("f1", []), ("f2", []), ("f3", []), ("f4", [])] "ghost" 5).suggestion =
          "Available functions: " ++
            commaJoin (([("f1", []), ("f2", []), ("f3", []), ("f4", [])].map
              (Prod.fst (α := String) (β := List ExpectedParameter))).take 3)
      ∧ ((([("f1", []), ("f2", []), ("f3", []), ("f4", [])] :
            List (String × List ExpectedParameter)).map Prod.fst).take 3).length ≤ 3 :=
  unknown_function_short_circuit [("f1", []), ("f2", []), ("f3", []), ("f4", [])]
    scenarioEnv "ghost" [("a", PyValue.int 1), ("b", PyValue.int 2)] 5 rfl

/-! ### Membership lemmas for the five checks -/

theorem lookup_isSome_mem_keys {β : Type} (l : List (String × β)) (k : String)
    (h : (l.lookup k).isSome) : k ∈ l.map Prod.fst := by
  induction l with
  | nil => simp [List.lookup] at h
  | cons a t ih =>
    obtain ⟨k1, v1⟩ := a
    by_cases hk : k = k1
    · simp [hk]
    · have hb : (k == k1) = false := beq_eq_false_iff_ne.mpr hk
      rw [List.lookup, hb] at h
      simpa using Or.inr (ih h)

theorem dictSet_keys_cases {β : Type} (m : List (String × β)) (k : String) (v : β) :
    (dictSet m k v).map Prod.fst = m.map Prod.fst
      ∨ (dictSet m k v).map Prod.fst = m.map Prod.fst ++ [k] := by
  unfold dictSet
  split
  · left
    rw [List.map_map]
    apply List.map_congr_left
    intro p _
    by_cases hp : p.1 = k
    · simp [hp]
    · simp [hp]
  · right
    simp

theorem foldl_dictSet_mem_keys (l : List ExpectedParameter) :
    ∀ (m : List (String × ExpectedParameter)) (k : String),
      k ∈ ((l.foldl (fun acc p => dictSet acc p.name p) m).map Prod.fst) →
      k ∈ m.map Prod.fst ∨ k ∈ l.map (fun p => p.name) := by
  induction l with
  | nil =>
    intro m k h
    exact Or.inl (by simpa using h)
  | cons p t ih =>
    intro m k h
    rw [List.foldl_cons] at h
    rcases ih (dictSet m p.name p) k h with h1 | h1
    · rcases dictSet_keys_cases m p.name p with hk | hk
      · rw [hk] at h1
        exact Or.inl h1
      · rw [hk] at h1
        rcases List.mem_append.mp h1 with h2 | h2
        · exact Or.inl h2
        · right
          simp only [List.mem_singleton] at h2
          simp [h2]
    · right
      simp only [List.map_cons]
      exact List.mem_cons_of_mem _ h1

theorem expectedByName_key_mem (expected : List ExpectedParameter) (k : String)
    (h : ((expectedByName expected).lookup k).isSome) :
    k ∈ expected.map (fun p => p.name) := by
  have h2 := foldl_dictSet_mem_keys expected [] k (lookup_isSome_mem_keys _ k h)
  simpa using h2

theorem mem_validateRequiredParameters (expected : List ExpectedParameter)
    (provided : List (String × PyValue)) (line : Nat) (e : ParameterValidationError)
    (he : e ∈ validateRequiredParameters expected provided line) :
    e.validation_type = ParameterValidationType.MISSING_REQUIRED
      ∧ e.parameter_name ∈ expected.map (fun p => p.name) := by
  simp only [validateRequiredParameters, List.mem_map] at he
  obtain ⟨p, hp, rfl⟩ := he
  exact ⟨rfl, List.mem_map_of_mem _ (List.mem_of_mem_filter hp)⟩

theorem mem_validateParameterTypes (expected : List ExpectedParameter)
    (provided : List (String × PyValue)) (line : Nat) (e : ParameterValidationError)
    (he : e ∈ validateParameterTypes expected provided line) :
    e.validation_type = ParameterValidationType.TYPE_MISMATCH
      ∧ e.parameter_name ∈ expected.map (fun p => p.name) := by
  simp only [validateParameterTypes, List.mem_flatMap] at he
  obtain ⟨q, hq, he⟩ := he
  rcases hl : (expectedByName expected).lookup q.1 with _ | ep
  · rw [hl] at he
    simp at he
  · rw [hl] at he
    dsimp only at he
    have hkey : q.1 ∈ expected.map (fun p => p.name) :=
      expectedByName_key_mem expected q.1 (by rw [hl]; rfl)
    split_ifs at he <;>
      first
        | exact absurd he (List.not_mem_nil e)
        | (rw [List.mem_singleton] at he; subst he; exact ⟨rfl, hkey⟩)

theorem mem_validateEnumValues (expected : List ExpectedParameter)
    (provided : List (String × PyValue)) (line : Nat) (e : ParameterValidationError)
    (he : e ∈ validateEnumValues expected provided line) :
    e.validation_type = ParameterValidationType.INVALID_ENUM
      ∧ e.parameter_name ∈ expected.map (fun p => p.name) := by
  simp only [validateEnumValues, List.mem_flatMap] at he
  obtain ⟨q, hq, he⟩ := he
  rcases hl : (expectedByName expected).lookup q.1 with _ | ep
  · rw [hl] at he
    simp at he
  · rw [hl] at he
    dsimp only at he
    have hkey : q.1 ∈ expected.map (fun p => p.name) :=
      expectedByName_key_mem expected q.1 (by rw [hl]; rfl)
    rcases hev : ep.enum_values with _ | vs
    · rw [hev] at he
      simp at he
    · rcases vs with _ | ⟨v, rest⟩
      · rw [hev] at he
        simp at he
      · rw [hev] at he
        dsimp only at he
        split_ifs at he
        · rw [List.mem_singleton] at he
          subst he
          exact ⟨rfl, hkey⟩
        · exact absurd he (List.not_mem_nil e)

theorem mem_validateJsonStructures (env : PyEnv) (expected : List ExpectedParameter)
    (provided : List (String × PyValue)) (line : Nat) (e : ParameterValidationError)
    (he : e ∈ validateJsonStructures env expected provided line) :
    e.validation_type = ParameterValidationType.INVALID_JSON_STRUCTURE
      ∧ e.parameter_name ∈ expected.map (fun p => p.name) := by
  simp only [validateJsonStructures, List.mem_flatMap] at he
  obtain ⟨q, hq, he⟩ := he
  rcases hl : (expectedByName expected).lookup q.1 with _ | ep
  · rw [hl] at he
    simp at he
  · rw [hl] at he
    dsimp only at he
    have hkey : q.1 ∈ expected.map (fun p => p.name) :=
      expectedByName_key_mem expected q.1 (by rw [hl]; rfl)
    split_ifs at he
    · rw [List.mem_singleton] at he
      subst he
      exact ⟨rfl, hkey⟩
    · rcases hjs : ep.json_schema with _ | schema
      · rw [hjs] at he
        simp at he
      · rw [hjs] at he
        dsimp only at he
        rw [List.mem_map] at he
        obtain ⟨err, _, rfl⟩ := he
        exact ⟨rfl, hkey⟩
    · exact absurd he (List.not_mem_nil e)

theorem mem_validateParameterCount_iff (expected : List ExpectedParameter)
    (provided : List (String × PyValue)) (line : Nat) :
    (∃ e ∈ validateParameterCount expected provided line,
        e.validation_type = ParameterValidationType.PARAMETER_COUNT_MISMATCH)
      ↔ provided.length < requiredCountOf expected ∨ provided.length > expected.length := by
  unfold validateParameterCount
  constructor
  · rintro ⟨e, he, -⟩
    by_contra hcon
    push_neg at hcon
    rw [if_neg (not_lt.mpr hcon.1), if_neg (not_lt.mpr hcon.2)] at he
    simp at he
  · intro h
    rcases h with h | h
    · exact ⟨tooFewParamsError expected provided line,
        List.mem_append_left _ (by rw [if_pos h]; exact List.mem_singleton_self _), rfl⟩
    · exact ⟨tooManyParamsError expected provided line,
        List.mem_append_right _ (by rw [if_pos h]; exact List.mem_singleton_self _), rfl⟩

theorem validateRpcCall_known (cache : List (String × List ExpectedParameter)) (env : PyEnv)
    (fname : String) (expected : List ExpectedParameter)
    (provided : List (String × PyValue)) (line : Nat)
    (hlook : cache.lookup fname = some expected) :
    validateRpcCall cache env fname provided line =
      validateParameterCount expected provided line ++
      validateRequiredParameters expected provided line ++
      validateParameterTypes expected provided line ++
      validateEnumValues expected provided line ++
      validateJsonStructures env expected provided line := by
  simp [validateRpcCall, hlook]

/-- C1: for a catalog function with `r` required parameters (those without
defaults) and `t` total parameters, a call providing a set of `p` distinct
parameters (for any `p` up to `t + 3`) produces a parameter-count-mismatch
issue if and only if `p < r` or `p > t`. -/
theorem rpc_arity_law (cache : List (String × List ExpectedParameter)) (env : PyEnv)
    (fname : String) (expected : List ExpectedParameter)
    (provided : List (String × PyValue)) (line : Nat)
    (hlook : cache.lookup fname = some expected)
    (_hnodup : (provided.map Prod.fst).Nodup)
    (_hrange : provided.length ≤ expected.length + 3) :
    (∃ e ∈ validateRpcCall cache env fname provided line,
        e.validation_type = ParameterValidationType.PARAMETER_COUNT_MISMATCH)
      ↔ (provided.length < requiredCountOf expected
          ∨ provided.length > expected.length) := by
  rw [validateRpcCall_known cache env fname expected provided line hlook]
  constructor
  · rintro ⟨e, he, hvt⟩
    simp only [List.mem_append] at he
    rcases he with ((((hc | hr) | ht) | hen) | hj)
    · exact (mem_validateParameterCount_iff expected provided line).mp ⟨e, hc, hvt⟩
    · rw [(mem_validateRequiredParameters expected provided line e hr).1] at hvt
      cases hvt
    · rw [(mem_validateParameterTypes expected provided line e ht).1] at hvt
      cases hvt
    · rw [(mem_validateEnumValues expected provided line e hen).1] at hvt
      cases hvt
    · rw [(mem_validateJsonStructures env expected provided line e hj).1] at hvt
      cases hvt
  · intro h
    obtain ⟨e, he, hv⟩ := (mem_validateParameterCount_iff expected provided line).mpr h
    exact ⟨e, List.mem_append_left _ (List.mem_append_left _ (List.mem_append_left _
      (List.mem_append_left _ he))), hv⟩

/-- Witness for `rpc_arity_law`: the scenario catalog function `f` has `r = 2`
required and `t = 2` total parameters, and a call providing one parameter
(`1 < 2`) indeed carries a count-mismatch issue. -/
theorem rpc_arity_law_witness :
    (∃ e ∈ validateRpcCall (buildFunctionCache scenarioSchema) scenarioEnv "f"
        [("user_id", PyValue.str scenarioUuid)] 0,
        e.validation_type = ParameterValidationType.PARAMETER_COUNT_MISMATCH)
      ↔ (([("user_id", PyValue.str scenarioUuid)] :
            List (String × PyValue)).length <
            requiredCountOf (((buildFunctionCache scenarioSchema).lookup "f").getD [])
          ∨ ([("user_id", PyValue.str scenarioUuid)] :
            List (String × PyValue)).length >
            (((buildFunctionCache scenarioSchema).lookup "f").getD []).length) :=
  rpc_arity_law (buildFunctionCache scenarioSchema) scenarioEnv "f"
    (((buildFunctionCache scenarioSchema).lookup "f").getD [])
    [("user_id", PyValue.str scenarioUuid)] 0 rfl (by decide) (by decide)

/-- C10: for a known catalog function and a provided parameter whose name is
not declared, as long as the provided count does not exceed the declared
count, no issue of the non-count checks names that parameter, and any
count-mismatch issue present is the too-few-parameters finding, whose
suggestion enumerates only declared (required, missing) names — so the
undeclared parameter is never reported. -/
theorem undeclared_param_not_reported (cache : List (String × List ExpectedParameter))
    (env : PyEnv) (fname : String) (expected : List ExpectedParameter)
    (provided : List (String × PyValue)) (line : Nat) (pname : String)
    (hlook : cache.lookup fname = some expected)
    (hmem : pname ∈ provided.map Prod.fst)
    (hundecl : pname ∉ expected.map (fun p => p.name))
    (hcount : provided.length ≤ expected.length) :
    ∀ e ∈ validateRpcCall cache env fname provided line,
      (e.validation_type ≠ ParameterValidationType.PARAMETER_COUNT_MISMATCH →
          e.parameter_name ≠ pname)
      ∧ (e.validation_type = ParameterValidationType.PARAMETER_COUNT_MISMATCH →
          e.parameter_name = "parameter_count"
          ∧ e.suggestion = "Add missing required parameters: "
              ++ commaJoin (missingRequiredNames expected provided)
          ∧ pname ∉ missingRequiredNames expected provided) := by
  intro e he
  rw [validateRpcCall_known cache env fname expected provided line hlook] at he
  have hmissing : pname ∉ missingRequiredNames expected provided := by
    intro hx
    apply hundecl
    simp only [missingRequiredNames, List.mem_map] at hx
    obtain ⟨p, hp, rfl⟩ := hx
    exact List.mem_map_of_mem _ (List.mem_of_mem_filter hp)
  simp only [List.mem_append] at he
  rcases he with ((((hc | hr) | ht) | hen) | hj)
  · unfold validateParameterCount at hc
    rw [if_neg (not_lt.mpr hcount)] at hc
    rw [List.append_nil] at hc
    by_cases hlt : provided.length < requiredCountOf expected
    · rw [if_pos hlt] at hc
      simp only [List.mem_singleton] at hc
      subst hc
      exact ⟨fun hne => absurd rfl hne, fun _ => ⟨rfl, rfl, hmissing⟩⟩
    · rw [if_neg hlt] at hc
      simp at hc
  · obtain ⟨hvt, hpn⟩ := mem_validateRequiredParameters expected provided line e hr
    refine ⟨fun _ hpe => hundecl (hpe ▸ hpn), fun hx => ?_⟩
    rw [hvt] at hx
    cases hx
  · obtain ⟨hvt, hpn⟩ := mem_validateParameterTypes expected provided line e ht
    refine ⟨fun _ hpe => hundecl (hpe ▸ hpn), fun hx => ?_⟩
    rw [hvt] at hx
    cases hx
  · obtain ⟨hvt, hpn⟩ := mem_validateEnumValues expected provided line e hen
    refine ⟨fun _ hpe => hundecl (hpe ▸ hpn), fun hx => ?_⟩
    rw [hvt] at hx
    cases hx
  · obtain ⟨hvt, hpn⟩ := mem_validateJsonStructures env expected provided line e hj
    refine ⟨fun _ hpe => hundecl (hpe ▸ hpn), fun hx => ?_⟩
    rw [hvt] at hx
    cases hx

/-- The issue list of the C10 witness call: the scenario function with an
undeclared parameter `extra` provided alongside `user_id`, staying within the
declared count (the call misses `range`, so the list holds one
missing-required issue). -/
def undeclaredWitnessCall : List ParameterValidationError :=
  validateRpcCall (buildFunctionCache scenarioSchema) scenarioEnv "f"
    [("user_id", PyValue.str scenarioUuid), ("extra", PyValue.int 1)] 0

/-- The first issue of the C10 witness call. -/
def undeclaredWitnessError : ParameterValidationError :=
  undeclaredWitnessCall.headD (unknownFunctionError [] "f" 0)

/-- Witness for `undeclared_param_not_reported` at the concrete first issue of
the witness call. -/
theorem undeclared_param_not_reported_witness :
    (undeclaredWitnessError.validation_type ≠
          ParameterValidationType.PARAMETER_COUNT_MISMATCH →
        undeclaredWitnessError.parameter_name ≠ "extra")
    ∧ (undeclaredWitnessError.validation_type =
          ParameterValidationType.PARAMETER_COUNT_MISMATCH →
        undeclaredWitnessError.parameter_name = "parameter_count"
        ∧ undeclaredWitnessError.suggestion = "Add missing required parameters: "
            ++ commaJoin (missingRequiredNames
              (((buildFunctionCache scenarioSchema).lookup "f").getD [])
              [("user_id", PyValue.str scenarioUuid), ("extra", PyValue.int 1)])
        ∧ "extra" ∉ missingRequiredNames
            (((buildFunctionCache scenarioSchema).lookup "f").getD [])
            [("user_id", PyValue.str scenarioUuid), ("extra", PyValue.int 1)]) :=
  undeclared_param_not_reported (buildFunctionCache scenarioSchema) scenarioEnv "f"
    (((buildFunctionCache scenarioSchema).lookup "f").getD [])
    [("user_id", PyValue.str scenarioUuid), ("extra", PyValue.int 1)] 0 "extra"
    rfl (by decide) (by decide) (by decide) undeclaredWitnessError (by decide)

/-! ### C3: re-ingestion behaviour of `_create_graph` -/

/-- One state extends another when the node list only grew at the end (every
graph statement either appends node instances or leaves them alone). -/
def NodesExtend (st t : GraphState) : Prop :=
  ∃ l, t.nodes = st.nodes ++ l

theorem nodesExtend_refl (st : GraphState) : NodesExtend st st :=
  ⟨[], (List.append_nil _).symm⟩

theorem nodesExtend_trans {a b c : GraphState} (h1 : NodesExtend a b)
    (h2 : NodesExtend b c) : NodesExtend a c := by
  obtain ⟨l1, h1⟩ := h1
  obtain ⟨l2, h2⟩ := h2
  exact ⟨l1 ++ l2, by rw [h2, h1, List.append_assoc]⟩

theorem nodesExtend_createNode (st : GraphState) (label key : String) :
    NodesExtend st (createNode st label key) :=
  ⟨[{ label := label, key := key }], rfl⟩

theorem nodesExtend_mergeNode (st : GraphState) (label key : String) :
    NodesExtend st (mergeNode st label key) := by
  unfold mergeNode
  split
  · exact nodesExtend_refl st
  · exact nodesExtend_createNode st label key

theorem nodesExtend_createEdges (st : GraphState) (l1 k1 rel l2 k2 : String) :
    NodesExtend st (createEdges st l1 k1 rel l2 k2) :=
  ⟨[], (List.append_nil _).symm⟩

theorem nodesExtend_mergeEdges (st : GraphState) (l1 k1 rel l2 k2 : String) :
    NodesExtend st (mergeEdges st l1 k1 rel l2 k2) :=
  ⟨[], (List.append_nil _).symm⟩

theorem nodesExtend_foldl {β : Type} (f : GraphState → β → GraphState)
    (hf : ∀ s b, NodesExtend s (f s b)) :
    ∀ (l : List β) (s : GraphState), NodesExtend s (l.foldl f s) := by
  intro l
  induction l with
  | nil => intro s; exact nodesExtend_refl s
  | cons b t ih =>
    intro s
    rw [List.foldl_cons]
    exact nodesExtend_trans (hf s b) (ih (f s b))

theorem nodesExtend_processMethod (st : GraphState) (c : String) (m : MethodData) :
    NodesExtend st (processMethod st c m) :=
  nodesExtend_trans (nodesExtend_mergeNode st _ _) (nodesExtend_mergeEdges _ _ _ _ _ _)

theorem nodesExtend_processAttribute (st : GraphState) (c : String) (a : AttributeData) :
    NodesExtend st (processAttribute st c a) :=
  nodesExtend_trans (nodesExtend_mergeNode st _ _) (nodesExtend_mergeEdges _ _ _ _ _ _)

theorem nodesExtend_processClass (st : GraphState) (fp : String) (cls : ClassData) :
    NodesExtend st (processClass st fp cls) := by
  unfold processClass
  refine nodesExtend_trans (nodesExtend_mergeNode st _ _)
    (nodesExtend_trans (nodesExtend_mergeEdges _ _ _ _ _ _)
      (nodesExtend_trans
        (nodesExtend_foldl _ (fun s m => nodesExtend_processMethod s _ m) _ _)
        (nodesExtend_foldl _ (fun s a => nodesExtend_processAttribute s _ a) _ _)))

theorem nodesExtend_processFunction (st : GraphState) (fp : String) (f : FunctionData) :
    NodesExtend st (processFunction st fp f) :=
  nodesExtend_trans (nodesExtend_mergeNode st _ _) (nodesExtend_mergeEdges _ _ _ _ _ _)

theorem nodesExtend_processComponent (st : GraphState) (fp : String) (c : ComponentData) :
    NodesExtend st (processComponent st fp c) :=
  nodesExtend_trans (nodesExtend_mergeNode st _ _) (nodesExtend_mergeEdges _ _ _ _ _ _)

theorem nodesExtend_processHook (hashFn : String → Int) (st : GraphState) (fp : String)
    (h : HookCallData) : NodesExtend st (processHook hashFn st fp h) :=
  nodesExtend_trans (nodesExtend_mergeNode st _ _) (nodesExtend_mergeEdges _ _ _ _ _ _)

theorem nodeExists_mono {st t : GraphState} (h : NodesExtend st t) (label key : String)
    (hex : nodeExists st label key = true) : nodeExists t label key = true := by
  obtain ⟨l, hl⟩ := h
  unfold nodeExists at hex ⊢
  rw [hl, List.any_append, hex, Bool.true_or]

theorem fileExists_processModule (hashFn : String → Int) (repoName : String)
    (st : GraphState) (m : ModuleData) :
    nodeExists (processModule hashFn repoName st m) "File" m.file_path = true := by
  unfold processModule
  by_cases hex : nodeExists st "File" m.file_path = true
  · rw [if_pos hex]
    exact hex
  · rw [if_neg hex]
    dsimp only
    have h1 : nodeExists (createNode st "File" m.file_path) "File" m.file_path = true := by
      unfold nodeExists createNode nodeMatches
      simp
    refine nodeExists_mono ?_ "File" m.file_path h1
    refine nodesExtend_trans (nodesExtend_createEdges (createNode st "File" m.file_path)
      "Repository" repoName "CONTAINS" "File" m.file_path) ?_
    refine nodesExtend_trans
      (nodesExtend_foldl (fun s c => processClass s m.file_path c)
        (fun s c => nodesExtend_processClass s m.file_path c) m.classes _) ?_
    refine nodesExtend_trans
      (nodesExtend_foldl (fun s f => processFunction s m.file_path f)
        (fun s f => nodesExtend_processFunction s m.file_path f) m.functions _) ?_
    refine nodesExtend_trans
      (nodesExtend_foldl (fun s c => processComponent s m.file_path c)
        (fun s c => nodesExtend_processComponent s m.file_path c) m.components _) ?_
    exact nodesExtend_foldl (fun s h => processHook hashFn s m.file_path h)
      (fun s h => nodesExtend_processHook hashFn s m.file_path h) m.hook_calls _

theorem nodesExtend_processModule (hashFn : String → Int) (repoName : String)
    (st : GraphState) (m : ModuleData) :
    NodesExtend st (processModule hashFn repoName st m) := by
  unfold processModule
  split
  · exact nodesExtend_refl st
  · dsimp only
    refine nodesExtend_trans (nodesExtend_createNode st "File" m.file_path) ?_
    refine nodesExtend_trans (nodesExtend_createEdges (createNode st "File" m.file_path)
      "Repository" repoName "CONTAINS" "File" m.file_path) ?_
    refine nodesExtend_trans
      (nodesExtend_foldl (fun s c => processClass s m.file_path c)
        (fun s c => nodesExtend_processClass s m.file_path c) m.classes _) ?_
    refine nodesExtend_trans
      (nodesExtend_foldl (fun s f => processFunction s m.file_path f)
        (fun s f => nodesExtend_processFunction s m.file_path f) m.functions _) ?_
    refine nodesExtend_trans
      (nodesExtend_foldl (fun s c => processComponent s m.file_path c)
        (fun s c => nodesExtend_processComponent s m.file_path c) m.components _) ?_
    exact nodesExtend_foldl (fun s h => processHook hashFn s m.file_path h)
      (fun s h => nodesExtend_processHook hashFn s m.file_path h) m.hook_calls _

/-- After one run over a module list, every module's `File` node exists. -/
theorem files_exist_after_run (hashFn : String → Int) (repoName : String) :
    ∀ (mods : List ModuleData) (st : GraphState) (m : ModuleData), m ∈ mods →
      nodeExists (mods.foldl (processModule hashFn repoName) st) "File" m.file_path = true := by
  intro mods
  induction mods with
  | nil =>
    intro st m hm
    exact absurd hm (List.not_mem_nil m)
  | cons a t ih =>
    intro st m hm
    rw [List.foldl_cons]
    rcases List.mem_cons.mp hm with rfl | hm
    · refine nodeExists_mono ?_ "File" m.file_path
        (fileExists_processModule hashFn repoName st m)
      exact nodesExtend_foldl _ (fun s b => nodesExtend_processModule hashFn repoName s b) t _
    · exact ih (processModule hashFn repoName st a) m hm

theorem processModule_eq_of_fileExists (hashFn : String → Int) (repoName : String)
    (st : GraphState) (m : ModuleData)
    (h : nodeExists st "File" m.file_path = true) :
    processModule hashFn repoName st m = st := by
  unfold processModule
  rw [if_pos h]

theorem foldl_processModule_const (hashFn : String → Int) (repoName : String) :
    ∀ (mods : List ModuleData) (st : GraphState),
      (∀ m ∈ mods, nodeExists st "File" m.file_path = true) →
      mods.foldl (processModule hashFn repoName) st = st := by
  intro mods
  induction mods with
  | nil => intro st _; rfl
  | cons a t ih =>
    intro st h
    rw [List.foldl_cons,
      processModule_eq_of_fileExists hashFn repoName st a (h a (List.mem_cons_self a t))]
    exact ih st (fun m hm => h m (List.mem_cons_of_mem a hm))

/-- C3 amended: re-running `_create_graph` on the same unchanged module list
appends exactly one fresh `Repository` node and changes nothing else: the
`Repository` node is written with `CREATE` (no uniqueness constraint exists on
its name), every module's `CREATE (f:File {path})` then violates the
`File.path` uniqueness constraint because run 1 created that node, the
per-file handler skips the whole module, and consequently no node of any
other label and no edge is added.  Node/edge counts are therefore not equal
after run 2 — the second run adds one node — and zero-new-nodes holds only
for the `MERGE`-keyed entity labels (Class, Method, Attribute, Function,
Component, Hook), or after an explicit repository clear. -/
theorem second_ingestion_adds_only_repository_node (hashFn : String → Int)
    (repoName : String) (modules : List ModuleData) :
    createGraph hashFn repoName modules (createGraph hashFn repoName modules emptyGraph) =
      createNode (createGraph hashFn repoName modules emptyGraph) "Repository" repoName := by
  conv_lhs => rw [createGraph]
  apply foldl_processModule_const
  intro m hm
  have h1 : nodeExists (createGraph hashFn repoName modules emptyGraph) "File" m.file_path
      = true := by
    rw [createGraph]
    exact files_exist_after_run hashFn repoName modules
      (createNode emptyGraph "Repository" repoName) m hm
  exact nodeExists_mono (nodesExtend_createNode _ _ _) "File" m.file_path h1

/-- The module list of the C3 counterexample: one file with no extracted
entities. -/
def c3Module : ModuleData := { file_path := "src/App.tsx", module_name := "App" }

def c3HashFn : String → Int := fun _ => 0

/-- Graph after ingesting the repository once, starting from an empty store. -/
def c3FirstRun : GraphState := createGraph c3HashFn "repoA" [c3Module] emptyGraph

/-- Graph after ingesting the same unchanged repository a second time. -/
def c3SecondRun : GraphState := createGraph c3HashFn "repoA" [c3Module] c3FirstRun

/-- C3 counterexample: ingesting the same unchanged one-file repository twice
does not leave node counts unchanged — run 1 produces 2 nodes (Repository,
File) and 1 CONTAINS edge, run 2 produces a third node (a second Repository
instance), because the Repository and File nodes are written with `CREATE`
rather than matched by key. -/
theorem ingestion_not_idempotent_counterexample :
    c3FirstRun.nodes.length = 2 ∧ c3FirstRun.edges.length = 1
      ∧ c3SecondRun.nodes.length = 3
      ∧ c3SecondRun.nodes.length ≠ c3FirstRun.nodes.length := by
  decide

/-! ### C9: fault tolerance of the catalog build -/

/-- C9: during catalog construction every metadata sub-query that fails yields
an empty list for its facet without aborting the build (functions, views,
enums, extensions, schemas at the schema level; columns, primary keys, foreign
keys, policies, routine parameters at the per-table/per-routine level), and
when the table metadata query itself fails the builder probes the fixed
conventional table list via direct data access, recording only existence:
every resulting table has empty columns, keys and policies, schema `public`,
and a probe-reachable name from the fixed list. -/
theorem catalog_facets_fault_tolerant (o : SupabaseOracle) (url : String) :
    (∀ err, o.functionsQuery = Except.error err → (analyzeSchema o url).functions = [])
    ∧ (∀ err, o.viewsQuery = Except.error err → (analyzeSchema o url).views = [])
    ∧ (∀ err, o.enumsQuery = Except.error err → (analyzeSchema o url).enums = [])
    ∧ (∀ err, o.extensionsQuery = Except.error err → (analyzeSchema o url).extensions = [])
    ∧ (∀ err, o.schemasQuery = Except.error err → (analyzeSchema o url).schemas = [])
    ∧ (∀ s t err, o.columnsQuery s t = Except.error err → analyzeTableColumns o s t = [])
    ∧ (∀ s t err, o.primaryKeysQuery s t = Except.error err → analyzePrimaryKeys o s t = [])
    ∧ (∀ s t err, o.foreignKeysQuery s t = Except.error err → analyzeForeignKeys o s t = [])
    ∧ (∀ s t err, o.policiesQuery s t = Except.error err → analyzeRlsPolicies o s t = [])
    ∧ (∀ s f err, o.parametersQuery s f = Except.error err →
        analyzeFunctionParameters o s f = [])
    ∧ (∀ err, o.tablesQuery = Except.error err →
        (analyzeSchema o url).tables = analyzeTablesFallback o
        ∧ ∀ t ∈ (analyzeSchema o url).tables,
            t.columns = [] ∧ t.primary_keys = [] ∧ t.foreign_keys = []
            ∧ t.policies = [] ∧ t.schema = "public" ∧ t.name ∈ commonTables
            ∧ o.tableProbe t.name = true) := by
  refine ⟨?_, ?_, ?_, ?_, ?_, ?_, ?_, ?_, ?_, ?_, ?_⟩
  · intro err h
    simp [analyzeSchema, analyzeFunctions, h]
  · intro err h
    simp [analyzeSchema, analyzeViews, h]
  · intro err h
    simp [analyzeSchema, analyzeEnums, h]
  · intro err h
    simp [analyzeSchema, analyzeExtensions, h]
  · intro err h
    simp [analyzeSchema, analyzeSchemas, h]
  · intro s t err h
    simp [analyzeTableColumns, h]
  · intro s t err h
    simp [analyzePrimaryKeys, h]
  · intro s t err h
    simp [analyzeForeignKeys, h]
  · intro s t err h
    simp [analyzeRlsPolicies, h]
  · intro s f err h
    simp [analyzeFunctionParameters, h]
  · intro err h
    have htab : (analyzeSchema o url).tables = analyzeTablesFallback o := by
      simp [analyzeSchema, analyzeTables, h]
    refine ⟨htab, ?_⟩
    intro t ht
    rw [htab] at ht
    unfold analyzeTablesFallback at ht
    rw [List.mem_filterMap] at ht
    obtain ⟨n, hn, hne⟩ := ht
    by_cases hp : o.tableProbe n = true
    · rw [if_pos hp] at hne
      obtain rfl := Option.some.inj hne
      exact ⟨rfl, rfl, rfl, rfl, rfl, hn, hp⟩
    · rw [if_neg hp] at hne
      cases hne

/-- The fully degraded backend of the C9 witness: every metadata query fails
and only the `users` table answers the REST probe. -/
def failingOracle : SupabaseOracle :=
  { tablesQuery := Except.error "metadata access denied"
    columnsQuery := fun _ _ => Except.error "metadata access denied"
    primaryKeysQuery := fun _ _ => Except.error "metadata access denied"
    foreignKeysQuery := fun _ _ => Except.error "metadata access denied"
    indexesQuery := fun _ _ => Except.error "metadata access denied"
    rlsQuery := fun _ _ => Except.error "metadata access denied"
    policiesQuery := fun _ _ => Except.error "metadata access denied"
    functionsQuery := Except.error "metadata access denied"
    parametersQuery := fun _ _ => Except.error "metadata access denied"
    viewsQuery := Except.error "metadata access denied"
    enumsQuery := Except.error "metadata access denied"
    extensionsQuery := Except.error "metadata access denied"
    schemasQuery := Except.error "metadata access denied"
    tableProbe := fun n => n == "users" }

/-- Witness for `catalog_facets_fault_tolerant` on the fully failing backend:
the build still returns a catalog whose facets are empty and whose tables are
exactly the probe-reachable fallback entry. -/
theorem catalog_facets_fault_tolerant_witness :
    (analyzeSchema failingOracle "https://example.supabase.co").functions = []
    ∧ (analyzeSchema failingOracle "https://example.supabase.co").views = []
    ∧ (analyzeSchema failingOracle "https://example.supabase.co").tables =
        analyzeTablesFallback failingOracle
    ∧ analyzeTableColumns failingOracle "public" "users" = [] :=
  ⟨(catalog_facets_fault_tolerant failingOracle "https://example.supabase.co").1
      "metadata access denied" rfl,
   (catalog_facets_fault_tolerant failingOracle "https://example.supabase.co").2.1
      "metadata access denied" rfl,
   ((catalog_facets_fault_tolerant failingOracle
      "https://example.supabase.co").2.2.2.2.2.2.2.2.2.2
      "metadata access denied" rfl).1,
   (catalog_facets_fault_tolerant failingOracle "https://example.supabase.co").2.2.2.2.2.1
      "public" "users" "metadata access denied" rfl⟩

end Crawl4ReactRag
